import Mathlib

/-!
# Verification of the pirate trade simulation core

A shallow embedding, in Lean 4, of the core simulation code of the
`pirate_trade_sim` repository:

* `economy/economy.py` — the shared pricing formula (`EconomyEngine`),
* `core/progression.py` — the XP / level curve,
* `core/day_update.py` — the daily market tick (spoilage, production,
  consumption, shocks, price smoothing, external import/export flows),
* `economy/npc_trade.py` — the NPC arbitrage trade engine
  (shipment arrivals and creation),
* `states/combat.py` — the final `CombatEngine` variant
  (stances, morale, abilities, turn ownership).

Modelling conventions:

* Python floats are modelled as real numbers (`ℝ`); `round(x, 3)` is modelled
  by `round3` below.  Python's `round` uses round-half-to-even; `round3` uses
  Mathlib's `round` (half-up).  The two agree on every non-tie value, and all
  concrete evaluations in this development stay away from ties.
* Python ints are modelled as `ℤ` (or `ℕ` for seeds and indices).
* Python dicts indexed by string keys are modelled as functions
  `String → Option _`; `d.get(k, default)` becomes `(f k).getD default` and
  `d[k] = v` becomes `Function.update f k (some v)`.
* All randomness is modelled by oracles: records holding the outcome of every
  RNG call the code can make, one field (or one stream `ℕ → _`) per call
  site.  A seeded `random.Random(seed)` becomes an oracle drawn from a
  generator `ℕ → Oracle` applied to the seed, so determinism-in-the-seed is
  expressible.  Range facts such as `rng.uniform(a, b) ∈ [a, b]` become
  explicit hypotheses where a proof needs them.
* Python's in-place mutation becomes explicit state passing.
-/

namespace PirateSim

/-- Python `round(x, 3)`: round to three decimal places.  (Mathlib `round` is
half-up; Python rounds half-to-even; they agree away from ties and every
concrete value evaluated in this file is a non-tie.) -/
noncomputable def round3 (x : ℝ) : ℝ := ((round (x * 1000) : ℤ) : ℝ) / 1000

/-- Python `int(x)` on a float: truncation toward zero. -/
noncomputable def py_int (x : ℝ) : ℤ := if 0 ≤ x then ⌊x⌋ else ⌈x⌉

/-- Python `s.strip().lower()` (drop surrounding whitespace, lower-case),
implemented over the character list so that it evaluates by `rfl`/`decide`. -/
def py_strip_lower (s : String) : String :=
  ⟨(((s.data.dropWhile Char.isWhitespace).reverse.dropWhile
      Char.isWhitespace).reverse).map Char.toLower⟩

/-- `clamp` from `economy/economy.py`: `max(lo, min(hi, x))`. -/
noncomputable def clamp (x lo hi : ℝ) : ℝ := max lo (min hi x)

/-! ## Economy engine (`economy/economy.py`, class `EconomyEngine`) -/

namespace Economy

/-- `EconomyEngine.BID_BY_NEED.get(need, 0.75)` (the default `0.75` is the
one used at the `compute_bid_ask` call site). -/
noncomputable def BID_BY_NEED (need : String) : ℝ :=
  if need = "critical" then 0.95
  else if need = "high" then 0.85
  else if need = "normal" then 0.75
  else if need = "low" then 0.35
  else if need = "irrelevant" then 0.10
  else 0.75

/-- `EconomyEngine.ASK_BY_NEED.get(need, 1.10)`. -/
noncomputable def ASK_BY_NEED (need : String) : ℝ :=
  if need = "critical" then 1.20
  else if need = "high" then 1.15
  else if need = "normal" then 1.10
  else if need = "low" then 1.50
  else if need = "irrelevant" then 3.50
  else 1.10

/-- `EconomyEngine.NEED_TARGET_MULT.get(need, 1.0)`. -/
noncomputable def NEED_TARGET_MULT (need : String) : ℝ :=
  if need = "critical" then 1.8
  else if need = "high" then 1.3
  else if need = "normal" then 1.0
  else if need = "low" then 0.4
  else if need = "irrelevant" then 0.1
  else 1.0

/-- `EconomyEngine.compute_reference_price`. -/
noncomputable def compute_reference_price (base_price stock target : ℝ) : ℝ :=
  let s := max stock 1.0
  let t := max target 1.0
  let ratio := t / s
  let mult := ratio ^ (0.85 : ℝ)
  let mult := clamp mult 0.40 3.50
  base_price * mult

/-- `EconomyEngine.compute_bid_ask`. -/
noncomputable def compute_bid_ask (base_price stock target : ℝ) (need : String) :
    ℝ × ℝ :=
  let ref := compute_reference_price base_price stock target
  let bid := ref * BID_BY_NEED need
  let ask := ref * ASK_BY_NEED need
  let bid := if bid > ask then ask * 0.95 else bid
  (bid, ask)

end Economy

/-! ## Progression (`core/progression.py`) -/

namespace Progression

/-- `MAX_LEVEL = 10`. -/
def MAX_LEVEL : ℤ := 10

/-- `xp_need_for_level(level)`: XP needed to go from `level` to `level + 1`. -/
def xp_need_for_level (level : ℤ) : ℤ :=
  let level := max 1 level
  let k := level - 1
  100 + k * 75 + k * k * 25

/-- `total_xp_cap()`: the sum of `xp_need_for_level` over `range(1, MAX_LEVEL)`. -/
def total_xp_cap : ℤ :=
  (List.range 9).foldl (fun total lvl => total + xp_need_for_level (lvl + 1)) 0

/-- `cap_xp(total_xp)`. -/
def cap_xp (total_xp : ℤ) : ℤ := max 0 (min total_xp total_xp_cap)

/-- The `while level < MAX_LEVEL` loop of `xp_to_level`, with fuel
`MAX_LEVEL - level` (so fuel `0` is exactly the `level == MAX_LEVEL` exit,
which returns `(MAX_LEVEL, need, need)` with
`need = xp_need_for_level(MAX_LEVEL - 1)`). -/
def xp_to_level_go : ℕ → ℤ → ℤ → ℤ × ℤ × ℤ
  | 0, _, _ => (MAX_LEVEL, xp_need_for_level (MAX_LEVEL - 1),
      xp_need_for_level (MAX_LEVEL - 1))
  | fuel + 1, level, xp =>
      let need := xp_need_for_level level
      if xp < need then (level, xp, need)
      else xp_to_level_go fuel (level + 1) (xp - need)

/-- `xp_to_level(total_xp)`: returns `(level, cur_xp_in_level, need_xp_for_next)`. -/
def xp_to_level (total_xp : ℤ) : ℤ × ℤ × ℤ :=
  xp_to_level_go 9 1 (cap_xp total_xp)

end Progression

/-! ## Combat engine (`states/combat.py`, final `CombatEngine` variant)

The engine's presentation-only state (the `log` deque, the `_events` queue and
the `_last_morale_tier` feedback cache, whose only consumers are the UI) is not
modelled; none of the rejected-action code paths below touch any other state.
The legacy `status` dict (leak/shaken DOTs of an earlier engine version) is
never touched by the final engine's fire/repair/stance paths and is omitted.
-/

namespace Combat

/-- `CombatStance` (`"offensive" | "balanced" | "defensive"`). -/
inductive CombatStance
  | offensive
  | balanced
  | defensive
deriving DecidableEq

/-- `CombatantRuntime` (the fields used by the final engine). -/
structure CombatantRuntime where
  name : String
  hp : ℤ
  hp_max : ℤ
  armor_physical : ℝ
  armor_abyssal : ℝ
  damage_min : ℤ
  damage_max : ℤ
  damage_type : String
  penetration : ℝ
  crit_chance : ℝ
  crit_multiplier : ℝ
  initiative_base : ℝ
  difficulty_tier : ℤ
  threat_level : ℤ
  morale : ℤ
  quick_repair_vuln_rounds : ℤ

/-- Per-side ability cooldown counters: the `self._cd[side]` dict over the four
registered ability ids (`fire`, `repair`, `flee`, `quick_repair`), all
initialised to 0 by `register_ability`. -/
structure Cooldowns where
  fire : ℤ
  repair : ℤ
  flee : ℤ
  quick_repair : ℤ

/-- `self._cd[side].get(ability_id, 0)`. -/
def Cooldowns.get (cd : Cooldowns) (ability_id : String) : ℤ :=
  if ability_id = "fire" then cd.fire
  else if ability_id = "repair" then cd.repair
  else if ability_id = "flee" then cd.flee
  else if ability_id = "quick_repair" then cd.quick_repair
  else 0

/-- `self._cd[side][ability_id] = v` for the four registered ids. -/
def Cooldowns.set (cd : Cooldowns) (ability_id : String) (v : ℤ) : Cooldowns :=
  if ability_id = "fire" then { cd with fire := v }
  else if ability_id = "repair" then { cd with repair := v }
  else if ability_id = "flee" then { cd with flee := v }
  else if ability_id = "quick_repair" then { cd with quick_repair := v }
  else cd

/-- The `self.rewards` dict: `{"gold": 0, "xp": 0, "cargo": []}` initially,
the computed rewards on a win, and the empty dict `{}` on a loss. -/
inductive RewardsState
  | pending (gold xp : ℤ)
  | cleared

/-- The mutable state of `CombatEngine` (minus presentation-only fields, see
the section comment). -/
structure CombatEngineState where
  p : CombatantRuntime
  e : CombatantRuntime
  finished : Bool
  outcome : Option String
  rewards : RewardsState
  round_index : ℤ
  turn_owner : String
  turn_queue : List String
  last_initiative : ℝ × ℝ
  stance : CombatStance
  stance_changed_this_round : Bool
  cd_player : Cooldowns
  cd_enemy : Cooldowns

/-- `self._cd[side]` (any side other than the two known strings is unreachable
behind `can_use_ability`'s side check). -/
def CombatEngineState.cd (st : CombatEngineState) (side : String) : Cooldowns :=
  if side = "player" then st.cd_player else st.cd_enemy

def CombatEngineState.setCd (st : CombatEngineState) (side : String)
    (cd : Cooldowns) : CombatEngineState :=
  if side = "player" then { st with cd_player := cd } else { st with cd_enemy := cd }

/-- The actor `self.p if side == "player" else self.e`. -/
def CombatEngineState.actor (st : CombatEngineState) (side : String) :
    CombatantRuntime :=
  if side = "player" then st.p else st.e

def CombatEngineState.setActor (st : CombatEngineState) (side : String)
    (c : CombatantRuntime) : CombatEngineState :=
  if side = "player" then { st with p := c } else { st with e := c }

/-- `CombatEngine._morale_tier`. -/
def morale_tier (morale : ℤ) : String :=
  if morale ≥ 80 then "bonus"
  else if morale ≥ 40 then "neutral"
  else if morale ≥ 20 then "malus"
  else "panic"

/-- The dict returned by `CombatEngine._morale_modifiers`. -/
structure MoraleMods where
  hit : ℝ
  repair : ℝ
  flee : ℝ
  panic_fail : ℝ

/-- `CombatEngine._morale_modifiers` (the tiered morale table; defined in the
source but never called by the final engine). -/
noncomputable def morale_modifiers (morale : ℤ) : MoraleMods :=
  let tier := morale_tier morale
  if tier = "bonus" then ⟨1.10, 1.15, 0.85, 0.0⟩
  else if tier = "malus" then ⟨0.85, 0.75, 1.15, 0.0⟩
  else if tier = "panic" then ⟨0.65, 0.50, 1.35, 0.25⟩
  else ⟨1.0, 1.0, 1.0, 0.0⟩

/-- The dict returned by `CombatEngine.get_live_combat_multipliers`. -/
structure LiveMults where
  damage : ℝ
  hit : ℝ
  repair : ℝ
  flee : ℝ
  panic_fail : ℝ

/-- `CombatEngine.get_live_combat_multipliers` ("SINGLE SOURCE OF TRUTH"):
stance multipliers times continuous morale multipliers. -/
noncomputable def get_live_combat_multipliers (st : CombatEngineState)
    (unit : CombatantRuntime) : LiveMults :=
  let stance_damage : ℝ := match st.stance with
    | .offensive => 1.20
    | .defensive => 0.90
    | .balanced => 1.0
  let stance_hit : ℝ := match st.stance with
    | .offensive => 1.10
    | .defensive => 0.90
    | .balanced => 1.0
  let stance_repair : ℝ := match st.stance with
    | .offensive => 0.85
    | .defensive => 1.20
    | .balanced => 1.0
  let stance_flee : ℝ := match st.stance with
    | .offensive => 0.85
    | .defensive => 1.25
    | .balanced => 1.0
  let morale : ℝ := (unit.morale : ℝ) / 100.0
  let morale_damage := 0.75 + morale * 0.5
  let morale_hit := 0.5 + morale * 0.75
  let morale_repair := 0.7 + morale * 0.6
  let morale_flee := 1.3 - morale * 0.6
  let panic_fail : ℝ :=
    if unit.morale < 20 then ((20 : ℝ) - (unit.morale : ℝ)) / 20.0 * 0.50 else 0.0
  { damage := stance_damage * morale_damage
    hit := stance_hit * morale_hit
    repair := stance_repair * morale_repair
    flee := stance_flee * morale_flee
    panic_fail := panic_fail }

/-- `CombatEngine._compute_hit_chance`. -/
noncomputable def compute_hit_chance (st : CombatEngineState)
    (attacker : CombatantRuntime) : ℝ :=
  let base : ℝ := 0.75
  let mods := get_live_combat_multipliers st attacker
  max 0.05 (min 0.95 (base * mods.hit))

/-- `CombatEngine._compute_repair_success`. -/
noncomputable def compute_repair_success (unit : CombatantRuntime) : ℝ :=
  let m := ((max 0 (min 100 unit.morale) : ℤ) : ℝ) / 100.0
  max 0.10 (min 0.95 (0.35 + 0.55 * m))

/-- `CombatEngine._compute_rewards` (gold and xp; the cargo list is always
empty in this engine version). -/
noncomputable def compute_rewards (e : CombatantRuntime) : ℤ × ℤ :=
  let dmg_avg := ((e.damage_min : ℝ) + (e.damage_max : ℝ)) * 0.5
  let armor_avg := (e.armor_physical + e.armor_abyssal) * 0.5
  let danger := (e.hp_max : ℝ) * 0.35 + dmg_avg * 6.0 + armor_avg * 1.2 +
    (e.threat_level : ℝ) * 35.0 + (e.difficulty_tier : ℝ) * 25.0
  (py_int (8 + danger * 0.12), py_int (4 + danger * 0.09))

/-- `CombatEngine._stop_turns`. -/
def stop_turns (st : CombatEngineState) : CombatEngineState :=
  { st with turn_queue := [], turn_owner := "none" }

/-- `CombatEngine._check_finish`, returning the updated state and the bool. -/
noncomputable def check_finish (st : CombatEngineState) :
    CombatEngineState × Bool :=
  if st.e.hp ≤ 0 then
    let r := compute_rewards st.e
    (stop_turns { st with
        finished := true
        outcome := some "win"
        rewards := .pending r.1 r.2 }, true)
  else if st.p.hp ≤ 0 then
    (stop_turns { st with
        finished := true
        outcome := some "lose"
        rewards := .cleared }, true)
  else (st, false)

/-- The RNG draws an execution of `CombatEngine._fire` can consume:
`hit_roll = random.random()`, `dmg_roll = random.randint(dmin, dmax)` and
`crit_roll = random.random()`. -/
structure FireDraws where
  hit_roll : ℝ
  dmg_roll : ℤ
  crit_roll : ℝ

/-- The result dict of `_fire` / `_ability_fire` (the fields the claims
read: `result` and `hull`). -/
structure FireRes where
  result : String
  hull : ℤ

/-- `CombatEngine._fire`: resolves one shot of `attacker` against `defender`
with the damage hook `mult`, returning the result and the updated attacker and
defender. -/
noncomputable def fire_resolve (st : CombatEngineState)
    (attacker defender : CombatantRuntime) (mult : ℝ) (d : FireDraws) :
    FireRes × CombatantRuntime × CombatantRuntime :=
  let mods := get_live_combat_multipliers st attacker
  let hit_chance := compute_hit_chance st attacker
  let hit := d.hit_roll < hit_chance
  if ¬ hit then
    let morale_loss : ℤ := if st.stance = .offensive then 6 + 4 else 6
    let attacker := { attacker with morale := max 0 (attacker.morale - morale_loss) }
    (⟨"miss", 0⟩, attacker, defender)
  else
    let dmin := attacker.damage_min
    let dmax := if attacker.damage_max < dmin then dmin else attacker.damage_max
    let base := d.dmg_roll
    let cc := max 0 (min 1 (attacker.crit_chance * mods.hit))
    let is_crit := d.crit_roll < max 0 (min 1 cc)
    let base := if is_crit then round ((base : ℝ) * max 1.0 attacker.crit_multiplier)
      else base
    let armor := if attacker.damage_type = "physical" then defender.armor_physical
      else defender.armor_abyssal
    let effective_armor := armor - attacker.penetration
    let dmg_mult_from_armor := max 0.1 (1.0 - effective_armor / 100.0)
    let dmg := round ((base : ℝ) * mult * dmg_mult_from_armor * mods.damage)
    let dmg := if defender.quick_repair_vuln_rounds > 0
      then round ((dmg : ℝ) * 1.35) else dmg
    let dmg := if dmg < 1 then 1 else dmg
    let defender := { defender with hp := max 0 (defender.hp - dmg) }
    let defender := { defender with morale := defender.morale - (if is_crit then 8 else 4) }
    let attacker := { attacker with morale := attacker.morale + (if is_crit then 4 else 2) }
    let defender := { defender with morale := max 0 (min 100 defender.morale) }
    let attacker := { attacker with morale := max 0 (min 100 attacker.morale) }
    (⟨if is_crit then "crit" else "hit", dmg⟩, attacker, defender)

/-- Unused `dmax` in `fire_resolve` documents the `randint(dmin, dmax)` range
of `dmg_roll`; this predicate states that an oracle is in-range for it. -/
def FireDraws.rollInRange (d : FireDraws) (attacker : CombatantRuntime) : Prop :=
  attacker.damage_min ≤ d.dmg_roll ∧
  d.dmg_roll ≤ max attacker.damage_min attacker.damage_max

/-- `CombatEngine._ability_fire(side, ctx)` with `mult = ctx.get("mult", 1.0)`:
the executor behind the `fire` ability. -/
noncomputable def ability_fire (st : CombatEngineState) (side : String)
    (mult : ℝ) (d : FireDraws) : FireRes × CombatEngineState :=
  if st.finished then (⟨"finished", 0⟩, st)
  else if ¬ (side = "player" ∨ side = "enemy") then (⟨"bad_side", 0⟩, st)
  else if side = "player" ∧ st.turn_owner ≠ "player" then (⟨"no_turn", 0⟩, st)
  else
    let attacker := if side = "player" then st.p else st.e
    let defender := if side = "player" then st.e else st.p
    let r := fire_resolve st attacker defender mult d
    let st := if side = "player" then { st with p := r.2.1, e := r.2.2 }
      else { st with e := r.2.1, p := r.2.2 }
    let fin := check_finish st
    -- Python returns `{"result": "finished", **res}` resp. `{"result": "ok",
    -- **res}`; `**res` comes last, so `res`'s own `result` key wins in both.
    if fin.2 then (⟨r.1.result, r.1.hull⟩, stop_turns fin.1)
    else (⟨r.1.result, r.1.hull⟩, fin.1)

/-- `CombatEngine.can_use_ability(ability_id, side)`: the four registered
ability specs have `morale_cost = 0`; only `repair` has a `can_use` hook
(`eng.p.hp < eng.p.hp_max`, note: always the player's hp). -/
def can_use_ability (st : CombatEngineState) (ability_id side : String) :
    Bool × String :=
  if st.finished then (false, "finished")
  else if ¬ (side = "player" ∨ side = "enemy") then (false, "bad_side")
  else if ¬ (ability_id = "fire" ∨ ability_id = "repair" ∨ ability_id = "flee" ∨
      ability_id = "quick_repair") then (false, "unknown")
  else if st.turn_owner ≠ side then (false, "not_your_turn")
  else if (st.cd side).get ability_id > 0 then (false, "cooldown")
  else if ability_id = "repair" ∧ ¬ (st.p.hp < st.p.hp_max) then (false, "full_hp")
  else (true, "")

/-- `CombatEngine.use_ability("fire", side, ctx)`: `can_use_ability` gate, then
`_ability_fire`; the fire spec has `cooldown_rounds = 0` and no morale cost, so
no cooldown is written.  Returns `none` for the Python `None` rejection. -/
noncomputable def use_ability_fire (st : CombatEngineState) (side : String)
    (mult : ℝ) (d : FireDraws) : Option FireRes × CombatEngineState :=
  let ok := can_use_ability st "fire" side
  if ok.1 = false then (none, st)
  else
    let r := ability_fire st side mult d
    (some r.1, r.2)

/-- The RNG draws an execution of `_ability_repair` can consume: the panic
roll, the success roll, and the draws of the chip-shot `use_ability("fire",
"enemy", ...)` it attempts. -/
structure RepairDraws where
  panic_roll : ℝ
  success_roll : ℝ
  chip : FireDraws

/-- The result dict of `_ability_repair` (fields the claims read); `chip` is
`none` when the inner `use_ability` returned Python `None`. -/
structure RepairRes where
  result : String
  heal : ℤ
  chip : Option FireRes

/-- `CombatEngine._ability_repair(side, ctx)`. -/
noncomputable def ability_repair (st : CombatEngineState) (side : String)
    (d : RepairDraws) : RepairRes × CombatEngineState :=
  if side ≠ "player" then (⟨"blocked", 0, none⟩, st)
  else if st.finished ∨ st.turn_owner ≠ "player" then (⟨"no_turn", 0, none⟩, st)
  else
    let mods := get_live_combat_multipliers st st.p
    let panic := mods.panic_fail
    if panic > 0.0 ∧ d.panic_roll < panic then
      let st := { st with p := { st.p with morale := max 0 (st.p.morale - 4) } }
      (⟨"panic_fail", 0, none⟩, st)
    else
      let success_chance := compute_repair_success st.p
      let success := d.success_roll < success_chance
      let base_heal := max 3 (round ((st.p.hp_max : ℝ) * 0.10))
      let heal := round ((base_heal : ℝ) * mods.repair)
      let stress_loss : ℤ := if st.stance = .offensive then 5 + 3
        else if st.stance = .defensive then 5 - 1 else 5
      let stress_loss := max 2 stress_loss
      let applied_heal := if success then min st.p.hp_max (st.p.hp + heal) - st.p.hp else 0
      let st := if success then
          { st with p := { st.p with
              hp := min st.p.hp_max (st.p.hp + heal)
              morale := min 100 (st.p.morale + 1) } }
        else { st with p := { st.p with morale := max 0 (st.p.morale - 4) } }
      let st := { st with p := { st.p with morale := max 0 (st.p.morale - stress_loss) } }
      let chip := use_ability_fire st "enemy" 0.35 d.chip
      (⟨if success then "success" else "fail", applied_heal, chip.1⟩, chip.2)

/-- `CombatEngine.use_ability("repair", side, ctx)`: gate, executor, then the
repair spec's `cooldown_rounds = 1` is written for `side`. -/
noncomputable def use_ability_repair (st : CombatEngineState) (side : String)
    (d : RepairDraws) : Option RepairRes × CombatEngineState :=
  let ok := can_use_ability st "repair" side
  if ok.1 = false then (none, st)
  else
    let r := ability_repair st side d
    let st := r.2.setCd side ((r.2.cd side).set "repair" 1)
    (some r.1, st)

/-- The RNG draws of `_start_new_round`: the two initiative jitters
(`random.uniform(-0.08, 0.08)`). -/
structure RoundDraws where
  jitter_p : ℝ
  jitter_e : ℝ

/-- `CombatEngine._roll_initiative`. -/
noncomputable def roll_initiative (base jitter : ℝ) : ℝ :=
  max 0.05 (base * (1.0 + jitter))

/-- Decrement every positive cooldown by one (the round-start cooldown tick). -/
def Cooldowns.tick (cd : Cooldowns) : Cooldowns :=
  { fire := if cd.fire > 0 then cd.fire - 1 else cd.fire
    repair := if cd.repair > 0 then cd.repair - 1 else cd.repair
    flee := if cd.flee > 0 then cd.flee - 1 else cd.flee
    quick_repair := if cd.quick_repair > 0 then cd.quick_repair - 1 else cd.quick_repair }

/-- `CombatEngine._start_new_round`. -/
noncomputable def start_new_round (st : CombatEngineState) (r : RoundDraws) :
    CombatEngineState :=
  let st := { st with round_index := st.round_index + 1 }
  let st := if st.p.quick_repair_vuln_rounds > 0 then
      { st with p := { st.p with quick_repair_vuln_rounds :=
          st.p.quick_repair_vuln_rounds - 1 } } else st
  let st := if st.e.quick_repair_vuln_rounds > 0 then
      { st with e := { st.e with quick_repair_vuln_rounds :=
          st.e.quick_repair_vuln_rounds - 1 } } else st
  let st := { st with stance_changed_this_round := false }
  let ip := roll_initiative st.p.initiative_base r.jitter_p
  let ie := roll_initiative st.e.initiative_base r.jitter_e
  let st := { st with last_initiative := (ip, ie) }
  let queue := if ip ≥ ie then ["player", "enemy"] else ["enemy", "player"]
  let st := { st with turn_queue := queue, turn_owner := queue.headD "player" }
  { st with cd_player := st.cd_player.tick, cd_enemy := st.cd_enemy.tick }

/-- `CombatEngine._advance_turn`. -/
noncomputable def advance_turn (st : CombatEngineState) (r : RoundDraws) :
    CombatEngineState :=
  match st.turn_queue with
  | [] => start_new_round st r
  | _ :: rest =>
      if rest = [] then start_new_round { st with turn_queue := rest } r
      else { st with turn_queue := rest, turn_owner := rest.headD st.turn_owner }

/-- `CombatEngine.player_fire()`: `use_ability("fire", "player")`, returning
`False` on rejection, else advancing the turn unless combat finished inside
the executor. -/
noncomputable def player_fire (st : CombatEngineState) (d : FireDraws)
    (r : RoundDraws) : Bool × CombatEngineState :=
  let res := use_ability_fire st "player" 1.0 d
  match res.1 with
  | none => (false, res.2)
  | some _ => if res.2.finished then (true, res.2) else (true, advance_turn res.2 r)

/-- `CombatEngine.set_stance(stance)`: returns `True` only if the stance was
actually changed; can succeed only once per round. -/
def set_stance (st : CombatEngineState) (stance : CombatStance) :
    Bool × CombatEngineState :=
  if st.finished then (false, st)
  else if st.stance_changed_this_round then (false, st)
  else if stance = st.stance then (false, st)
  else (true, { st with stance := stance, stance_changed_this_round := true })

end Combat

/-! ## World content and market state (`core/day_update.py`, `economy/npc_trade.py`)

The two daily ticks.  All randomness of a tick is provided by an oracle record
(one field per RNG call site; per-good streams are indexed by the good's
position in the iteration order, per-shipment and per-deal streams by their
position, which maps every RNG call of the code to exactly one oracle slot).
The truthiness guards `if not ctx.world or not ctx.markets: return` of both
`on_new_day`s are modelled as passing: we model post-setup contexts where the
world object exists and the markets dict is populated; on the degenerate empty
context both ticks are the identity, which affects no claim.
-/

namespace Market

/-- `GoodDef` (`data/loader.py`): the fields the simulation reads. -/
structure Good where
  id : String
  category : String
  base_price : ℝ
  spoil_rate_per_day : ℝ
  target_stock : ℝ

/-- `CityTypeDef` (`data/loader.py`): the fields the simulation reads
(`needs` is the `category → need-level` dict). -/
structure CityType where
  id : String
  market_size : String
  needs : String → Option String

/-- `CityDef` (`data/loader.py`): only `city_type_id` is read by the ticks. -/
structure CityDef where
  city_type_id : String

/-- `world.model.City`: only `id` is read by the ticks.  (The NPC travel-time
heuristic probes attributes `x`/`y` with `getattr(_, _, None)`; `City` stores
`pos` instead, so those probes always yield `None`.) -/
structure City where
  id : String

/-- Modelled from the spec: `CityMarketState` (imported from
`economy/market.py`, a module not present under `src/`): per-city mutable
`stock` and `price_stock` dicts and the `top_needs` list — exactly the fields
every caller in `day_update.py`, `npc_trade.py` and `states/setup.py` uses. -/
structure CityMarketState where
  stock : String → Option ℝ
  price_stock : String → Option ℝ
  top_needs : List String

/-- `Shipment` (`economy/npc_trade.py`). -/
structure Shipment where
  src_city_id : String
  dst_city_id : String
  good_id : String
  qty : ℝ
  eta_days : ℤ
  created_day : ℕ

/-- The simulation context `ctx`: content collections, world cities, markets,
the persistent per-(city, category) supply-index dict and the pending NPC
shipments. -/
structure Ctx where
  goods : List Good
  cities_content : String → Option CityDef
  city_types : String → Option CityType
  world_cities : List City
  markets : String → Option CityMarketState
  city_supply_idx : String × String → Option ℝ
  npc_shipments : List Shipment

/-- `(needs.get(cat, "normal") or "normal").strip().lower()` — the need lookup
used by both modules (`or` replaces the empty string, Python falsiness). -/
def need_of (needs : String → Option String) (cat : String) : String :=
  let n := (needs cat).getD "normal"
  let n := if n = "" then "normal" else n
  py_strip_lower n

/-- `_need_weight` (`core/day_update.py`; `economy/npc_trade.py` has the same
table). -/
noncomputable def need_weight (need : String) : ℝ :=
  if need = "critical" then 1.75
  else if need = "high" then 1.35
  else if need = "normal" then 1.00
  else if need = "low" then 0.65
  else if need = "irrelevant" then 0.25
  else 1.0

/-- `_get_city_type` (`day_update.py`) = `_city_type` (`npc_trade.py`). -/
def get_city_type (ctx : Ctx) (city_id : String) : Option CityType :=
  match ctx.cities_content city_id with
  | none => none
  | some cdef => ctx.city_types cdef.city_type_id

/-- `_target_for(ctx, city, good)` (identical in both modules). -/
noncomputable def target_for (ctx : Ctx) (city_id : String) (g : Good) : ℝ :=
  match get_city_type ctx city_id with
  | none => g.target_stock
  | some ctype =>
      g.target_stock * Economy.NEED_TARGET_MULT (need_of ctype.needs g.category)

/-- `_market_size_params(market_size)`:
`(capacity_mult, prod_base, cons_base)`. -/
noncomputable def market_size_params (market_size : String) : ℝ × ℝ × ℝ :=
  if market_size = "small" then (1.25, 0.08, 0.09)
  else if market_size = "large" then (1.60, 0.12, 0.11)
  else (1.40, 0.10, 0.10)

/-- `_production_bias(city_type_id, category)`. -/
noncomputable def production_bias (city_type_id category : String) : ℝ :=
  if city_type_id = "farm_city" then
    (if category = "food" then 1.60 else if category = "raw" then 1.05
     else if category = "craft" then 0.70 else if category = "sea" then 0.55
     else if category = "luxury" then 0.70 else 1.0)
  else if city_type_id = "mining_city" then
    (if category = "raw" then 1.70 else if category = "craft" then 0.85
     else if category = "food" then 0.65 else if category = "sea" then 0.55
     else if category = "luxury" then 0.55 else 1.0)
  else if city_type_id = "harbor_city" then
    (if category = "sea" then 1.55 else if category = "craft" then 1.25
     else if category = "food" then 0.95 else if category = "raw" then 0.95
     else if category = "luxury" then 1.05 else 1.0)
  else 1.0

/-- `_external_flow_params(city_type_id)`: `(import_mult, export_mult)`. -/
noncomputable def external_flow_params (city_type_id : String) : ℝ × ℝ :=
  if city_type_id = "harbor_city" then (1.25, 1.25)
  else if city_type_id = "farm_city" then (0.85, 1.20)
  else if city_type_id = "mining_city" then (0.85, 1.25)
  else (1.00, 1.00)

/-- `_category_external_bias(city_type_id, category)`:
`(import_bias, export_bias)`. -/
noncomputable def category_external_bias (city_type_id category : String) :
    ℝ × ℝ :=
  if city_type_id = "farm_city" then
    ((if category = "food" then 0.45 else if category = "raw" then 1.05
      else if category = "craft" then 1.20 else if category = "sea" then 1.10
      else if category = "luxury" then 1.15 else 1.0),
     (if category = "food" then 1.55 else if category = "raw" then 1.00
      else if category = "craft" then 0.70 else if category = "sea" then 0.60
      else if category = "luxury" then 0.65 else 1.0))
  else if city_type_id = "mining_city" then
    ((if category = "food" then 1.25 else if category = "raw" then 0.50
      else if category = "craft" then 1.10 else if category = "sea" then 1.10
      else if category = "luxury" then 1.20 else 1.0),
     (if category = "food" then 0.65 else if category = "raw" then 1.70
      else if category = "craft" then 0.75 else if category = "sea" then 0.60
      else if category = "luxury" then 0.60 else 1.0))
  else if city_type_id = "harbor_city" then
    ((if category = "food" then 0.95 else if category = "raw" then 0.95
      else if category = "craft" then 0.90 else if category = "sea" then 0.70
      else if category = "luxury" then 0.85 else 1.0),
     (if category = "food" then 0.90 else if category = "raw" then 0.90
      else if category = "craft" then 1.15 else if category = "sea" then 1.35
      else if category = "luxury" then 1.10 else 1.0))
  else (1.0, 1.0)

/-- The RNG draws the per-good main-loop body can consume, in call order:
`prod_noise = uniform(0.75, 1.25)`, then inside `_supply_idx` a
`drift = uniform(-0.06, 0.06)`, a `jump_roll = random()` and (when it fires)
a `jump = uniform(-0.18, 0.18)`, then `cons_noise = uniform(0.80, 1.30)`. -/
structure GoodDraws where
  prod_noise : ℝ
  drift : ℝ
  jump_roll : ℝ
  jump : ℝ
  cons_noise : ℝ

/-- The RNG draws of the external-flows loop per good:
`imp_vol` and `exp_vol` are the two `uniform(0.55, 1.55)` volatilities. -/
structure FlowDraws where
  imp_vol : ℝ
  exp_vol : ℝ

/-- The outcomes of every RNG call a single city's market tick can make
(`rng = random.Random(seed)`): the shock roll, the shock category chosen by
`rng.choices` over the five categories, the shock strength
`uniform(0.25, 0.55)`, the per-good draws, the disruption roll and factor
(`uniform(0.15, 0.55)`), and the per-good flow draws. -/
structure MarketOracle where
  shock_roll : ℝ
  shock_cat : String
  shock_strength : ℝ
  good : ℕ → GoodDraws
  disrupt_roll : ℝ
  disrupt_factor : ℝ
  flow : ℕ → FlowDraws

/-- `_supply_idx(city_id, cat)`: random-walk update of the persistent index;
returns the clamped value that is also stored. -/
noncomputable def supply_idx_step (cur : Option ℝ) (d : GoodDraws) : ℝ :=
  let v := cur.getD 1.0
  let v := v + d.drift
  let v := if d.jump_roll < 0.08 then v + d.jump else v
  max 0.55 (min 1.55 v)

/-- The per-good body of the main loop of `on_new_day` (`core/day_update.py`,
steps 1–7 plus the price-stock lag): spoilage, capacity, production,
consumption, shock, clamp, smoothing, 3-decimal rounding.  State: the city's
market and the persistent supply-index dict. -/
noncomputable def good_tick (ctx : Ctx) (city_id : String) (ctype : CityType)
    (city_type_id : String) (cap_mult prod_base cons_base : ℝ)
    (shock : Bool) (shock_cat : String) (shock_factor : ℝ)
    (g : Good) (d : GoodDraws)
    (ms : CityMarketState × (String × String → Option ℝ)) :
    CityMarketState × (String × String → Option ℝ) :=
  let market := ms.1
  let sidx := ms.2
  let stock := (market.stock g.id).getD 0.0
  let ps := (market.price_stock g.id).getD stock
  let stock := if g.spoil_rate_per_day > 0.0 ∧ stock > 0.0 then
      max 0.0 (stock * (1.0 - g.spoil_rate_per_day)) else stock
  let target := target_for ctx city_id g
  let capacity := max 2.0 (target * cap_mult)
  let prod_bias := production_bias city_type_id g.category
  let supply0 := supply_idx_step (sidx (city_id, g.category)) d
  let sidx := Function.update sidx (city_id, g.category) (some supply0)
  let supply := if g.category = "food" then supply0 ^ (1.35 : ℝ) else supply0
  let prod := prod_base * prod_bias * d.prod_noise * supply * capacity *
    (1.0 - stock / capacity)
  let prod := max 0.0 prod
  let need_w := need_weight (need_of ctype.needs g.category)
  let cons := cons_base * need_w * d.cons_noise * capacity
  let cons := min cons (stock + prod)
  let stock := if shock ∧ shock_cat = g.category then
      max 0.0 (stock + prod - cons) * shock_factor
    else max 0.0 (stock + prod - cons)
  let stock := min stock capacity
  let ps := ps + 0.18 * (stock - ps)
  ({ market with
      stock := Function.update market.stock g.id (some (round3 stock))
      price_stock := Function.update market.price_stock g.id
        (some (round3 (max ps 0.0))) },
    sidx)

/-- The per-good body of `_apply_external_flows`: capped import when well
under target, capped export when well over target. -/
noncomputable def external_flow_good (ctx : Ctx) (city_id : String)
    (ctype : CityType) (city_type_id : String)
    (import_mult export_mult disruption_factor : ℝ)
    (g : Good) (fd : FlowDraws) (market : CityMarketState) : CityMarketState :=
  let target := target_for ctx city_id g
  let stock := (market.stock g.id).getD 0.0
  let bias := category_external_bias city_type_id g.category
  let import_cap := 0.06 * target * import_mult * bias.1 * fd.imp_vol *
    disruption_factor
  let market :=
    if stock < 0.70 * target ∧ import_cap > 0 then
      let w := need_weight (need_of ctype.needs g.category)
      let qty := import_cap * (0.6 + 0.5 * w)
      let qty := min qty (max 0.0 (0.90 * target - stock))
      if qty > 0 then
        { market with stock := (Function.update market.stock g.id (some (round3 (stock + qty)))) }
      else market
    else market
  let stock := (market.stock g.id).getD 0.0
  let export_cap := 0.07 * target * export_mult * bias.2 * fd.exp_vol *
    disruption_factor
  if stock > 1.10 * target ∧ export_cap > 0 then
    let qty := min export_cap (stock - 1.05 * target)
    if qty > 0 then
      { market with stock := (Function.update market.stock g.id (some (round3 (stock - qty)))) }
    else market
  else market

/-- One city's market tick (the per-city body of `on_new_day` in
`core/day_update.py`): skipped when the city has no market or no city type;
otherwise the shock setup, the per-good main loop (threading the market and
the supply-index dict) and `_apply_external_flows`. -/
noncomputable def city_tick (o : MarketOracle) (city : City) (ctx : Ctx) : Ctx :=
  match ctx.markets city.id with
  | none => ctx
  | some market =>
    match get_city_type ctx city.id with
    | none => ctx
    | some ctype =>
      let params := market_size_params ctype.market_size
      let city_type_id := if ctype.id ≠ "" then ctype.id else "unknown"
      let shock := o.shock_roll < 0.06
      let shock_factor := if shock then 1.0 - o.shock_strength else 1.0
      let folded := (ctx.goods.enum).foldl
        (fun ms gi => good_tick ctx city.id ctype city_type_id params.1
          params.2.1 params.2.2 shock o.shock_cat shock_factor gi.2
          (o.good gi.1) ms)
        (market, ctx.city_supply_idx)
      let disruption := o.disrupt_roll < 0.10
      let disruption_factor := if disruption then o.disrupt_factor else 1.0
      let fps := external_flow_params city_type_id
      let market2 := (ctx.goods.enum).foldl
        (fun m gi => external_flow_good ctx city.id ctype city_type_id fps.1
          fps.2 disruption_factor gi.2 (o.flow gi.1) m)
        folded.1
      { ctx with
        markets := Function.update ctx.markets city.id (some market2)
        city_supply_idx := folded.2 }

/-- The per-(city, day) market RNG seed
`(hash(city.id) ^ (day * 1000003)) & 0xFFFFFFFF`; Python's process-salted
string `hash` is the session-fixed parameter `pyhash`. -/
def market_seed (pyhash : String → ℕ) (city_id : String) (day : ℕ) : ℕ :=
  (Nat.xor (pyhash city_id) (day * 1000003)) &&& 0xFFFFFFFF

/-- Stable insert used to model Python's stable `list.sort(reverse=True)` by
score (an element is placed after all earlier elements with ≥ score). -/
noncomputable def insert_desc (x : ℝ × String) :
    List (ℝ × String) → List (ℝ × String)
  | [] => [x]
  | y :: ys => if y.1 < x.1 then x :: y :: ys else y :: insert_desc x ys

/-- Python's `scored.sort(reverse=True, key=score)` (stable, descending):
modelled by stable insertion sort, which computes the same list as any stable
descending sort. -/
noncomputable def sort_desc (l : List (ℝ × String)) : List (ℝ × String) :=
  l.foldl (fun acc x => insert_desc x acc) []

/-- The scored-goods list of `_update_top_needs` for one city. -/
noncomputable def top_needs_scores (ctx : Ctx) (city_id : String)
    (ctype : CityType) (market : CityMarketState) : List (ℝ × String) :=
  ctx.goods.foldr (fun g acc =>
    let w := need_weight (need_of ctype.needs g.category)
    if w ≤ 0.0 then acc
    else
      let target := target_for ctx city_id g
      let ps := (market.price_stock g.id).getD ((market.stock g.id).getD 0.0)
      let ps := max ps 1.0
      (target / ps * w, g.id) :: acc) []

/-- `_update_top_needs(ctx)`. -/
noncomputable def update_top_needs (ctx : Ctx) : Ctx :=
  ctx.world_cities.foldl (fun c city =>
    match c.markets city.id with
    | none => c
    | some market =>
      match get_city_type c city.id with
      | none => { c with markets := (Function.update c.markets city.id (some { market with top_needs := [] })) }
      | some ctype =>
        let sorted := sort_desc (top_needs_scores c city.id ctype market)
        { c with markets := (Function.update c.markets city.id (some { market with top_needs := (sorted.take 3).map (·.2) })) })
    ctx

end Market

/-! ## NPC trade engine (`economy/npc_trade.py`) -/

namespace Npc

/-- The RNG draws one arriving shipment can consume: the loss roll, the
total-loss roll (`random() < 0.25`) and the partial-loss fraction
(`uniform(0.15, 0.55)`). -/
structure ArrivalDraws where
  loss_roll : ℝ
  total_roll : ℝ
  partial_frac : ℝ

/-- The RNG outcomes one `_choose_arbitrage` call can consume: the city and
good samples (`rng.sample`, any permutation of a subset of the required size)
and, per `(good, src, dst)` candidate, the two quantity fractions
`uniform(0.08, 0.22)` and `uniform(0.05, 0.12)`. -/
structure DealDraws where
  city_sample : List Market.City
  good_sample : List Market.Good
  qty_src_frac : ℕ → ℕ → ℕ → ℝ
  qty_dst_frac : ℕ → ℕ → ℕ → ℝ

/-- The outcomes of every RNG call one NPC tick can make. -/
structure NpcOracle where
  arrival : ℕ → ArrivalDraws
  deal : ℕ → DealDraws

/-- `_travel_time_days(city_a, city_b)`: the `getattr(_, "x"/"y", None)`
probes always return `None` (`world.model.City` has `pos`, not `x`/`y`), so
the default of 2 days is always returned. -/
def travel_time_days (_a _b : Market.City) : ℤ := 2

/-- The body of the `_apply_shipments_arrival` loop for one pending shipment:
decrement the ETA, keep it if still travelling, otherwise roll losses and
deliver the surviving quantity into the destination market (whose
`price_stock` is re-written as `round(max(ps, 0), 3)`, no immediate jump). -/
noncomputable def arrival_step (d : ArrivalDraws)
    (acc : (String → Option Market.CityMarketState) × List Market.Shipment)
    (s : Market.Shipment) :
    (String → Option Market.CityMarketState) × List Market.Shipment :=
  let markets := acc.1
  let remaining := acc.2
  let s := { s with eta_days := s.eta_days - 1 }
  if s.eta_days > 0 then (markets, remaining ++ [s])
  else
    let qty := s.qty
    if qty ≤ 0 then (markets, remaining)
    else
      let qty := if d.loss_roll < 0.06 then
          (if d.total_roll < 0.25 then 0.0 else qty * (1.0 - d.partial_frac))
        else qty
      if qty ≤ 0 then (markets, remaining)
      else
        match markets s.dst_city_id with
        | none => (markets, remaining)
        | some dst =>
          let new_stock := round3 ((dst.stock s.good_id).getD 0.0 + qty)
          let dst := { dst with stock := (Function.update dst.stock s.good_id (some new_stock)) }
          let ps := (dst.price_stock s.good_id).getD new_stock
          let dst := { dst with price_stock := (Function.update dst.price_stock s.good_id (some (round3 (max ps 0.0)))) }
          (Function.update markets s.dst_city_id (some dst), remaining)

/-- `_apply_shipments_arrival(ctx, rng)`. -/
noncomputable def apply_shipments_arrival (o : NpcOracle) (ctx : Market.Ctx) :
    Market.Ctx :=
  let res := (ctx.npc_shipments.enum).foldl
    (fun acc is => arrival_step (o.arrival is.1) acc is.2)
    (ctx.markets, [])
  { ctx with markets := res.1, npc_shipments := res.2 }

/-- One `(good, src, dst)` candidate of `_choose_arbitrage`: `none` when any
of the skip conditions fires, otherwise the candidate tuple and its score. -/
noncomputable def eval_candidate (ctx : Market.Ctx) (d : DealDraws)
    (gi : ℕ × Market.Good) (si di : ℕ × Market.City) :
    Option ((String × String × String × ℝ × ℤ) × ℝ) :=
  let g := gi.2
  let src := si.2
  let dst := di.2
  if src.id = dst.id then none
  else
    match ctx.markets src.id, ctx.markets dst.id with
    | some src_market, some dst_market =>
      let src_stock := (src_market.stock g.id).getD 0.0
      if src_stock < 3.0 then none
      else
        match Market.get_city_type ctx dst.id with
        | none => none
        | some dst_ctype =>
          let need := Market.need_of dst_ctype.needs g.category
          let dst_target := Market.target_for ctx dst.id g
          let dst_ps := (dst_market.price_stock g.id).getD
            ((dst_market.stock g.id).getD 0.0)
          let dst_bid := (Economy.compute_bid_ask g.base_price dst_ps
            dst_target need).1
          match Market.get_city_type ctx src.id with
          | none => none
          | some src_ctype =>
            let src_need := Market.need_of src_ctype.needs g.category
            let src_target := Market.target_for ctx src.id g
            let src_ps := (src_market.price_stock g.id).getD
              ((src_market.stock g.id).getD 0.0)
            let src_ask := (Economy.compute_bid_ask g.base_price src_ps
              src_target src_need).2
            let margin := dst_bid - src_ask
            if margin ≤ 0.0 then none
            else if (dst_market.stock g.id).getD 0.0 ≥ 0.9 * dst_target then
              none
            else
              let u := d.qty_src_frac gi.1 si.1 di.1
              let v := d.qty_dst_frac gi.1 si.1 di.1
              let qty := min (src_stock * u) (max 4.0 (dst_target * v))
              let qty := max 0.0 qty
              some ((src.id, dst.id, g.id, qty, travel_time_days src dst),
                margin * qty)
    | _, _ => none

/-- `_choose_arbitrage(ctx, rng)`: the best-scoring candidate over the sampled
goods and city pairs (strict improvement over the running best, initial best
score 0). -/
noncomputable def choose_arbitrage (d : DealDraws) (ctx : Market.Ctx) :
    Option (String × String × String × ℝ × ℤ) :=
  if ctx.world_cities.length < 2 then none
  else
    let res := (d.good_sample.enum).foldl (fun acc gi =>
      (d.city_sample.enum).foldl (fun acc si =>
        (d.city_sample.enum).foldl (fun acc di =>
          match eval_candidate ctx d gi si di with
          | none => acc
          | some cs => if cs.2 > acc.2 then (some cs.1, cs.2) else acc)
          acc) acc)
      ((none : Option (String × String × String × ℝ × ℤ)), (0.0 : ℝ))
    res.1

/-- The body of the deals loop of `on_new_day` (`economy/npc_trade.py`):
materialise the chosen arbitrage as a shipment, clamping the quantity to the
available source stock, skipping quantities below 1 ton, and deducting the
quantity from the source market. -/
noncomputable def make_deal (day : ℕ) (d : DealDraws) (ctx : Market.Ctx) :
    Market.Ctx :=
  match choose_arbitrage d ctx with
  | none => ctx
  | some (src_id, dst_id, gid, qty, eta) =>
    match ctx.markets src_id with
    | none => ctx
    | some src_market =>
      let hv := (src_market.stock gid).getD 0.0
      let qty := min qty hv
      if qty < 1.0 then ctx
      else
        { ctx with
          markets := (Function.update ctx.markets src_id (some { src_market with stock := (Function.update src_market.stock gid (some (round3 (hv - qty)))) }))
          npc_shipments := (ctx.npc_shipments ++ [⟨src_id, dst_id, gid, qty, max 1 eta, day⟩]) }

/-- The NPC tick seed `(day * 2654435761) & 0xFFFFFFFF`. -/
def npc_seed (day : ℕ) : ℕ := (day * 2654435761) &&& 0xFFFFFFFF

/-- `on_new_day(ctx)` (`economy/npc_trade.py`): arrivals, then
`clamp(round(city_count * 0.65), 1, 8)` new-deal attempts. -/
noncomputable def on_new_day (o : NpcOracle) (day : ℕ) (ctx : Market.Ctx) :
    Market.Ctx :=
  let ctx := apply_shipments_arrival o ctx
  let deals := max 1 (min 8 (round ((ctx.world_cities.length : ℝ) * 0.65)))
  (List.range deals.toNat).foldl (fun c i => make_deal day (o.deal i) c) ctx

end Npc

/-! ## The day driver (`core/day_update.py`: `on_new_day`) -/

namespace DayUpdate

/-- `on_new_day(ctx)` (`core/day_update.py`): the per-city market ticks (one
seeded RNG per city and day), then the NPC trade tick (its own day seed),
then `_update_top_needs`.  `Gm`/`Gn` turn a seed into the tick's RNG
outcomes, so the same seed always reproduces the same tick. -/
noncomputable def on_new_day (Gm : ℕ → Market.MarketOracle)
    (Gn : ℕ → Npc.NpcOracle) (pyhash : String → ℕ) (day : ℕ)
    (ctx : Market.Ctx) : Market.Ctx :=
  let ctx2 := ctx.world_cities.foldl
    (fun c city =>
      Market.city_tick (Gm (Market.market_seed pyhash city.id day)) city c)
    ctx
  let ctx3 := Npc.on_new_day (Gn (Npc.npc_seed day)) day ctx2
  Market.update_top_needs ctx3

end DayUpdate

/-! ## Invariant predicates for the market claims -/

/-- Every stored stock and price-stock value of a market is nonnegative. -/
def MNonneg (m : Market.CityMarketState) : Prop :=
  (∀ gid v, m.stock gid = some v → 0 ≤ v) ∧
  (∀ gid v, m.price_stock gid = some v → 0 ≤ v)

/-- Every market of a markets dict satisfies `MNonneg`. -/
def MarketsNonnegFn (markets : String → Option Market.CityMarketState) : Prop :=
  ∀ cid m, markets cid = some m → MNonneg m

/-- Every market of the context satisfies `MNonneg`. -/
def MarketsNonneg (ctx : Market.Ctx) : Prop :=
  MarketsNonnegFn ctx.markets

/-- The RNG ranges of a market-tick oracle (each field within the range of the
`uniform`/`random` call it models). -/
def MarketOracleOk (o : Market.MarketOracle) : Prop :=
  (0 ≤ o.shock_roll ∧ o.shock_roll < 1) ∧
  (0.25 ≤ o.shock_strength ∧ o.shock_strength ≤ 0.55) ∧
  (0 ≤ o.disrupt_roll ∧ o.disrupt_roll < 1) ∧
  (0.15 ≤ o.disrupt_factor ∧ o.disrupt_factor ≤ 0.55) ∧
  (∀ n, 0.75 ≤ (o.good n).prod_noise ∧ (o.good n).prod_noise ≤ 1.25 ∧
    -0.06 ≤ (o.good n).drift ∧ (o.good n).drift ≤ 0.06 ∧
    (0 ≤ (o.good n).jump_roll ∧ (o.good n).jump_roll < 1) ∧
    -0.18 ≤ (o.good n).jump ∧ (o.good n).jump ≤ 0.18 ∧
    0.80 ≤ (o.good n).cons_noise ∧ (o.good n).cons_noise ≤ 1.30) ∧
  (∀ n, 0.55 ≤ (o.flow n).imp_vol ∧ (o.flow n).imp_vol ≤ 1.55 ∧
    0.55 ≤ (o.flow n).exp_vol ∧ (o.flow n).exp_vol ≤ 1.55)

/-! ## Concrete market fixtures used by the market claims -/

/-- A non-food good: target 100, no spoilage (capacity 140 in a medium city). -/
noncomputable def c1good : Market.Good := ⟨"g", "raw", 10, 0, 100⟩

/-- A plain medium city type with no declared needs (every lookup falls back
to `"normal"`). -/
noncomputable def c1ctype : Market.CityType := ⟨"plain_city", "medium", fun _ => none⟩

/-- The market of city `"A"`: the good exactly at its capacity of 140 tons
(no stored price-stock, so reads default to the stock). -/
noncomputable def c1mA : Market.CityMarketState :=
  ⟨fun g => if g = "g" then some 140 else none, fun _ => none, []⟩

/-- One city `"A"` holding `c1good` at exactly its capacity of 140 tons, with
a 30-ton NPC shipment arriving on the next tick. -/
noncomputable def c1ctx : Market.Ctx where
  goods := [c1good]
  cities_content := fun c => if c = "A" then some ⟨"plain_city"⟩ else none
  city_types := fun t => if t = "plain_city" then some c1ctype else none
  world_cities := [⟨"A"⟩]
  markets := fun c => if c = "A" then some c1mA else none
  city_supply_idx := fun _ => none
  npc_shipments := [⟨"B", "A", "g", 30, 1, 0⟩]

/-- A quiet market oracle: no shock, no supply jump, no disruption, neutral
noises (all inside their `uniform` ranges). -/
noncomputable def c1mo : Market.MarketOracle where
  shock_roll := 0.5
  shock_cat := "food"
  shock_strength := 0.30
  good := fun _ => ⟨1.0, 0.0, 0.5, 0.0, 1.0⟩
  disrupt_roll := 0.5
  disrupt_factor := 0.30
  flow := fun _ => ⟨1.0, 1.0⟩

/-- A quiet NPC oracle: no shipment losses; deal sampling returns nothing
(`c1ctx` has a single city, so `_choose_arbitrage` bails out anyway). -/
noncomputable def c1no : Npc.NpcOracle where
  arrival := fun _ => ⟨0.5, 0.5, 0.30⟩
  deal := fun _ => ⟨[], [], fun _ _ _ => 0.1, fun _ _ _ => 0.06⟩

/-- Market-oracle generator for the C1 run (the same quiet oracle for every
seed). -/
noncomputable def c1Gm : ℕ → Market.MarketOracle := fun _ => c1mo

/-- NPC-oracle generator for the C1 run. -/
noncomputable def c1Gn : ℕ → Npc.NpcOracle := fun _ => c1no

/-- A session hash function for the C1 run. -/
def c1hash : String → ℕ := fun _ => 0

/-- The C1 stock dict after the per-good market tick (140 spoils nothing,
produces 0 at full capacity, consumes 14). -/
noncomputable def c1m1s : String → Option ℝ :=
  Function.update c1mA.stock "g" (some 126)

/-- The C1 price-stock dict after the per-good market tick
(`140 + 0.18 * (126 - 140) = 137.48`). -/
noncomputable def c1m1p : String → Option ℝ :=
  Function.update c1mA.price_stock "g" (some 137.48)

/-- The C1 market after the city tick: the export flow removed
`min(7, 126 - 105) = 7` tons. -/
noncomputable def c1m2 : Market.CityMarketState :=
  ⟨Function.update c1m1s "g" (some 119), c1m1p, []⟩

/-- The C1 market after the NPC arrival: the 30-ton shipment lands with no
loss and no capacity clamp, `119 + 30 = 149 > 140`. -/
noncomputable def c1m3 : Market.CityMarketState :=
  ⟨Function.update c1m2.stock "g" (some 149),
    Function.update c1m2.price_stock "g" (some 137.48), []⟩

/-- The C1 context after the city market tick. -/
noncomputable def c1ctx1 : Market.Ctx :=
  { c1ctx with
      markets := Function.update c1ctx.markets "A" (some c1m2)
      city_supply_idx :=
        Function.update c1ctx.city_supply_idx ("A", "raw") (some 1.0) }

/-- The C1 context after the NPC tick: the shipment has landed, no deal was
made (a single-city world). -/
noncomputable def c1ctx2 : Market.Ctx :=
  { c1ctx1 with
      markets := Function.update c1ctx1.markets "A" (some c1m3)
      npc_shipments := [] }

/-- The source city type of the NPC-conservation fixture (all needs normal). -/
noncomputable def c5src_t : Market.CityType := ⟨"src_t", "medium", fun _ => none⟩

/-- The destination city type: critical need for the `"raw"` category. -/
noncomputable def c5dst_t : Market.CityType :=
  ⟨"dst_t", "medium", fun c => if c = "raw" then some "critical" else none⟩

/-- The source market: 10 tons of stock, price-stock 100 (at target). -/
noncomputable def c5mS : Market.CityMarketState :=
  ⟨fun g => if g = "g" then some 10 else none,
    fun g => if g = "g" then some 100 else none, []⟩

/-- The destination market: starved (stock 0, price-stock 0.5). -/
noncomputable def c5mD : Market.CityMarketState :=
  ⟨fun g => if g = "g" then some 0 else none,
    fun g => if g = "g" then some 0.5 else none, []⟩

/-- Two cities: `"S"` holds 10 tons of `c1good` (price-stock at target, so its
ask is `base * 1.10`), `"D"` is starved (stock 0, price-stock 0.5, critical
need, so its bid is `base * 3.5 * 0.95`). -/
noncomputable def c5ctx : Market.Ctx where
  goods := [c1good]
  cities_content := fun c =>
    if c = "S" then some ⟨"src_t"⟩ else if c = "D" then some ⟨"dst_t"⟩ else none
  city_types := fun t =>
    if t = "src_t" then some c5src_t
    else if t = "dst_t" then some c5dst_t else none
  world_cities := [⟨"S"⟩, ⟨"D"⟩]
  markets := fun c =>
    if c = "S" then some c5mS else if c = "D" then some c5mD else none
  city_supply_idx := fun _ => none
  npc_shipments := []

/-- Deal draws for the C5 run: both cities and the single good sampled; the
source-quantity fraction `0.12344 ∈ [0.08, 0.22]` produces the non-3-decimal
quantity `10 * 0.12344 = 1.2344`. -/
noncomputable def c5dd : Npc.DealDraws where
  city_sample := [⟨"S"⟩, ⟨"D"⟩]
  good_sample := [c1good]
  qty_src_frac := fun _ _ _ => 0.12344
  qty_dst_frac := fun _ _ _ => 0.05

/-- NPC oracle for the C5 run. -/
noncomputable def c5no : Npc.NpcOracle where
  arrival := fun _ => ⟨0.5, 0.5, 0.30⟩
  deal := fun _ => c5dd

/-- Arrival draws with no loss (`loss_roll = 0.5 ≥ 0.06`), used by the C5
witness. -/
noncomputable def c5ad : Npc.ArrivalDraws := ⟨0.5, 0.5, 0.30⟩

/-- A 2.5-ton shipment into `"S"` arriving on the next tick, used by the C5
witness. -/
noncomputable def c5ship : Market.Shipment := ⟨"B", "S", "g", 2.5, 1, 0⟩

/-! ## Concrete combat fixtures used by the combat claims -/

namespace Combat

/-- A concrete player combatant (full morale, damaged hull). -/
noncomputable def fixP : CombatantRuntime :=
  ⟨"You", 50, 100, 30, 0, 10, 10, "physical", 0, 0, 1.5, 10, 1, 1, 100, 0⟩

/-- A concrete enemy combatant. -/
noncomputable def fixE : CombatantRuntime :=
  ⟨"Corsair", 80, 80, 20, 10, 8, 12, "physical", 5, 0.1, 1.5, 9, 1, 1, 100, 0⟩

/-- A concrete engine state on the player's turn, balanced stance. -/
noncomputable def fixState : CombatEngineState :=
  { p := fixP
    e := fixE
    finished := false
    outcome := none
    rewards := .pending 0 0
    round_index := 1
    turn_owner := "player"
    turn_queue := ["player", "enemy"]
    last_initiative := (10, 9)
    stance := .balanced
    stance_changed_this_round := false
    cd_player := ⟨0, 0, 0, 0⟩
    cd_enemy := ⟨0, 0, 0, 0⟩ }

/-- `fixState` but on the enemy's turn (for the turn-integrity claim). -/
noncomputable def fixStateEnemyTurn : CombatEngineState :=
  { fixState with turn_owner := "enemy", turn_queue := ["enemy", "player"] }

/-- Concrete fire draws. -/
noncomputable def fixFireDraws : FireDraws := ⟨0.5, 10, 0.9⟩

/-- Concrete round-start draws. -/
noncomputable def fixRoundDraws : RoundDraws := ⟨0.0, 0.0⟩

/-- Concrete repair draws (success roll 0.5 against chance 0.9). -/
noncomputable def fixRepairDraws : RepairDraws := ⟨0.9, 0.5, ⟨0.5, 10, 0.9⟩⟩

/-- The repair result produced from `fixState` and `fixRepairDraws`. -/
noncomputable def fixRepairRes : RepairRes := ⟨"success", 13, none⟩

end Combat

/-! ## Helper lemmas about 3-decimal rounding -/

theorem round3_nonneg {x : ℝ} (hx : 0 ≤ x) : 0 ≤ round3 x := by
  unfold round3
  have h : (0 : ℤ) ≤ round (x * 1000) := by
    rw [round_eq, Int.le_floor]
    push_cast
    nlinarith
  have h' : (0 : ℝ) ≤ ((round (x * 1000) : ℤ) : ℝ) := by exact_mod_cast h
  linarith

theorem abs_round3_sub (x : ℝ) : |round3 x - x| ≤ 1 / 2000 := by
  unfold round3
  have h := abs_sub_round (x * 1000)
  rw [abs_sub_comm] at h
  rw [show ((round (x * 1000) : ℤ) : ℝ) / 1000 - x
        = (((round (x * 1000) : ℤ) : ℝ) - x * 1000) / 1000 by ring]
  rw [abs_div]
  rw [show |(1000 : ℝ)| = 1000 by norm_num]
  linarith

theorem round3_le (x : ℝ) : round3 x ≤ x + 1 / 2000 := by
  have h := abs_round3_sub x
  have h' := abs_le.mp h
  linarith [h'.2]

theorem le_round3 (x : ℝ) : x - 1 / 2000 ≤ round3 x := by
  have h := abs_round3_sub x
  have h' := abs_le.mp h
  linarith [h'.1]

theorem round3_le_of_le {x c : ℝ} (h : x ≤ c) : round3 x ≤ c + 1 / 2000 := by
  have := round3_le x
  linarith

/-! ## Helper lemmas about the pricing power term -/

theorem rpow85_ge_of_hundred_le {r : ℝ} (h : 100 ≤ r) :
    (3.5 : ℝ) ≤ r ^ (0.85 : ℝ) := by
  have h100 : ((100 : ℝ)) ^ (0.85 : ℝ) ≤ r ^ (0.85 : ℝ) :=
    Real.rpow_le_rpow (by norm_num) h (by norm_num)
  have h1 : (100 : ℝ) = (10 : ℝ) ^ (2 : ℝ) := by
    rw [show (2 : ℝ) = ((2 : ℕ) : ℝ) by norm_num, Real.rpow_natCast]
    norm_num
  have h2 : (10 : ℝ) ^ (1 : ℝ) ≤ (10 : ℝ) ^ ((2 : ℝ) * 0.85) :=
    Real.rpow_le_rpow_of_exponent_le (by norm_num) (by norm_num)
  rw [Real.rpow_one] at h2
  have h3 : ((100 : ℝ)) ^ (0.85 : ℝ) = (10 : ℝ) ^ ((2 : ℝ) * 0.85) := by
    rw [h1, ← Real.rpow_mul (by norm_num : (0 : ℝ) ≤ 10)]
  linarith

theorem compute_reference_price_nonneg {b : ℝ} (hb : 0 ≤ b) (stock target : ℝ) :
    0 ≤ Economy.compute_reference_price b stock target := by
  unfold Economy.compute_reference_price clamp
  have h : (0 : ℝ) ≤ max 0.40 (min 3.50 ((max target 1.0 / max stock 1.0) ^ (0.85 : ℝ))) := by
    have := le_max_left (0.40 : ℝ) (min 3.50 ((max target 1.0 / max stock 1.0) ^ (0.85 : ℝ)))
    linarith
  exact mul_nonneg hb h

theorem bid_le_ask_mult (need : String) :
    Economy.BID_BY_NEED need ≤ Economy.ASK_BY_NEED need := by
  unfold Economy.BID_BY_NEED Economy.ASK_BY_NEED
  split_ifs <;> norm_num

theorem ask_mult_nonneg (need : String) : 0 ≤ Economy.ASK_BY_NEED need := by
  unfold Economy.ASK_BY_NEED
  split_ifs <;> norm_num

/-- Claim C6: for `base_price = 10`, `stock = 0`, `target = 100` and need level
`"critical"`, `compute_bid_ask` returns `bid = 33.25` and `ask = 42`, via
`reference_price = 10 * clamp((100/1)^0.85, 0.40, 3.50) = 35`. -/
theorem claim_C6_scenario1 :
    Economy.compute_bid_ask 10 0 100 "critical" = (33.25, 42) := by
  have href : Economy.compute_reference_price 10 0 100 = 35 := by
    unfold Economy.compute_reference_price clamp
    dsimp only
    have hratio : max (100 : ℝ) 1.0 / max (0 : ℝ) 1.0 = 100 := by norm_num
    rw [hratio]
    have h35 : (3.5 : ℝ) ≤ (100 : ℝ) ^ (0.85 : ℝ) :=
      rpow85_ge_of_hundred_le (by norm_num)
    rw [min_eq_left (by linarith : (3.50 : ℝ) ≤ (100 : ℝ) ^ (0.85 : ℝ))]
    norm_num
  unfold Economy.compute_bid_ask
  rw [href]
  norm_num [Economy.BID_BY_NEED, Economy.ASK_BY_NEED, String.reduceEq]

/-- Claim C7 (counterexample): with a negative `base_price` the invariant
`bid ≤ ask` fails: `compute_bid_ask(-10, 1, 1, "critical")` returns
`bid = -11.4 > ask = -12` (the clamp `bid = ask * 0.95` moves a negative bid
above the negative ask). -/
theorem claim_C7_counterexample :
    Economy.compute_bid_ask (-10) 1 1 "critical" = (-11.4, -12) ∧
    ¬ ((Economy.compute_bid_ask (-10) 1 1 "critical").1 ≤
        (Economy.compute_bid_ask (-10) 1 1 "critical").2) := by
  have href : Economy.compute_reference_price (-10) 1 1 = -10 := by
    unfold Economy.compute_reference_price clamp
    dsimp only
    have hratio : max (1 : ℝ) 1.0 / max (1 : ℝ) 1.0 = 1 := by norm_num
    rw [hratio, Real.one_rpow]
    norm_num
  have h : Economy.compute_bid_ask (-10) 1 1 "critical" = (-11.4, -12) := by
    unfold Economy.compute_bid_ask
    rw [href]
    norm_num [Economy.BID_BY_NEED, Economy.ASK_BY_NEED, String.reduceEq]
  refine ⟨h, ?_⟩
  rw [h]
  norm_num

/-- Claim C7 (amended): for every `base_price ≥ 0`, every stock and target
value, and every need-level string (including unknown ones falling back to
defaults), `compute_bid_ask` returns `bid ≤ ask`; and whenever the
need-multiplier tables would produce `bid > ask`, the returned bid is `ask * 0.95`. -/
theorem claim_C7_amended (base stock target : ℝ) (need : String)
    (hbase : 0 ≤ base) :
    (Economy.compute_bid_ask base stock target need).1 ≤
      (Economy.compute_bid_ask base stock target need).2 ∧
    (Economy.compute_reference_price base stock target * Economy.BID_BY_NEED need >
        Economy.compute_reference_price base stock target * Economy.ASK_BY_NEED need →
      (Economy.compute_bid_ask base stock target need).1 =
        Economy.compute_reference_price base stock target *
          Economy.ASK_BY_NEED need * 0.95) := by
  have href : 0 ≤ Economy.compute_reference_price base stock target :=
    compute_reference_price_nonneg hbase stock target
  have hmul : Economy.BID_BY_NEED need ≤ Economy.ASK_BY_NEED need :=
    bid_le_ask_mult need
  have hask : 0 ≤ Economy.compute_reference_price base stock target *
      Economy.ASK_BY_NEED need :=
    mul_nonneg href (ask_mult_nonneg need)
  constructor
  · unfold Economy.compute_bid_ask
    dsimp only
    split_ifs with hgt
    · nlinarith
    · exact mul_le_mul_of_nonneg_left hmul href
  · intro hgt
    unfold Economy.compute_bid_ask
    dsimp only
    rw [if_pos hgt]

/-- Claim C7 (witness): the amended theorem applied at
`base_price = 10, stock = 1, target = 1, need = "critical"`. -/
theorem claim_C7_amended_witness :
    (Economy.compute_bid_ask 10 1 1 "critical").1 ≤
      (Economy.compute_bid_ask 10 1 1 "critical").2 :=
  (claim_C7_amended 10 1 1 "critical" (by norm_num)).1

/-- Claim C9: `xp_to_level` applied to `total_xp_cap()` returns level 10 with
`cur == need` (concretely `(10, 2300, 2300)`). -/
theorem claim_C9_xp_cap_level10 :
    Progression.xp_to_level Progression.total_xp_cap = (10, 2300, 2300) ∧
    (Progression.xp_to_level Progression.total_xp_cap).2.1 =
      (Progression.xp_to_level Progression.total_xp_cap).2.2 := by
  constructor <;> decide

/-! ## Combat claims -/

/-- Claim C4: if `turn_owner` is not `"player"`, then `player_fire()` returns
false and has no side effects: both combatants (hence their HP and morale),
the cooldown counters, the turn queue, the round index, the finished flag and
the outcome are exactly as before the call. -/
theorem claim_C4_player_fire_no_turn (st : Combat.CombatEngineState)
    (d : Combat.FireDraws) (r : Combat.RoundDraws)
    (h : st.turn_owner ≠ "player") :
    (Combat.player_fire st d r).1 = false ∧
    (Combat.player_fire st d r).2.p = st.p ∧
    (Combat.player_fire st d r).2.e = st.e ∧
    (Combat.player_fire st d r).2.cd_player = st.cd_player ∧
    (Combat.player_fire st d r).2.cd_enemy = st.cd_enemy ∧
    (Combat.player_fire st d r).2.turn_queue = st.turn_queue ∧
    (Combat.player_fire st d r).2.round_index = st.round_index ∧
    (Combat.player_fire st d r).2.finished = st.finished ∧
    (Combat.player_fire st d r).2.outcome = st.outcome := by
  have hr : Combat.player_fire st d r = (false, st) := by
    unfold Combat.player_fire Combat.use_ability_fire Combat.can_use_ability
    cases hf : st.finished <;> simp [hf, h]
  rw [hr]
  simp

/-- Claim C4 (witness): the theorem applied on a state whose turn owner is
`"enemy"`. -/
theorem claim_C4_witness :
    (Combat.player_fire Combat.fixStateEnemyTurn Combat.fixFireDraws
        Combat.fixRoundDraws).1 = false ∧
    (Combat.player_fire Combat.fixStateEnemyTurn Combat.fixFireDraws
        Combat.fixRoundDraws).2.p = Combat.fixStateEnemyTurn.p :=
  ⟨(claim_C4_player_fire_no_turn Combat.fixStateEnemyTurn Combat.fixFireDraws
      Combat.fixRoundDraws (by simp [Combat.fixStateEnemyTurn, Combat.fixState])).1,
    (claim_C4_player_fire_no_turn Combat.fixStateEnemyTurn Combat.fixFireDraws
      Combat.fixRoundDraws (by simp [Combat.fixStateEnemyTurn, Combat.fixState])).2.1⟩

/-- Claim C10: `set_stance` returns false when combat is finished, when the
stance was already changed this round, or when the requested stance equals the
current one; every false-returning call leaves the whole state (lock and
stance included) unchanged, and from a fresh unlocked state a call with a
different stance still succeeds. -/
theorem claim_C10_set_stance (st : Combat.CombatEngineState)
    (s : Combat.CombatStance) :
    (st.finished = true → Combat.set_stance st s = (false, st)) ∧
    (st.stance_changed_this_round = true → Combat.set_stance st s = (false, st)) ∧
    (s = st.stance → Combat.set_stance st s = (false, st)) ∧
    ((Combat.set_stance st s).1 = false → (Combat.set_stance st s).2 = st) ∧
    (st.finished = false → st.stance_changed_this_round = false →
      s ≠ st.stance → (Combat.set_stance st s).1 = true) := by
  refine ⟨?_, ?_, ?_, ?_, ?_⟩
  · intro hfin
    unfold Combat.set_stance
    simp [hfin]
  · intro hch
    unfold Combat.set_stance
    cases hf : st.finished <;> simp [hf, hch]
  · intro hs
    unfold Combat.set_stance
    cases hf : st.finished <;> cases hc : st.stance_changed_this_round <;>
      simp [hf, hc, hs]
  · intro hfalse
    unfold Combat.set_stance at hfalse ⊢
    cases hf : st.finished <;> cases hc : st.stance_changed_this_round <;>
      by_cases hs : s = st.stance <;> simp_all
  · intro hf hc hs
    unfold Combat.set_stance
    simp [hf, hc, hs]

/-- Claim C10 (witness): on a fresh balanced-stance state, requesting
`balanced` again fails and leaves the state unchanged, after which requesting
`offensive` in the same round succeeds. -/
theorem claim_C10_witness :
    Combat.set_stance Combat.fixState Combat.CombatStance.balanced =
      (false, Combat.fixState) ∧
    (Combat.set_stance Combat.fixState Combat.CombatStance.offensive).1 = true :=
  ⟨(claim_C10_set_stance Combat.fixState Combat.CombatStance.balanced).2.2.1
      (by simp [Combat.fixState]),
    (claim_C10_set_stance Combat.fixState Combat.CombatStance.offensive).2.2.2.2
      (by simp [Combat.fixState]) (by simp [Combat.fixState])
      (by simp [Combat.fixState])⟩

/-- Claim C3 (counterexample): at morale 100 and balanced stance the tiered
table (`_morale_modifiers`) prescribes a hit multiplier of 1.10, so the claim
predicts a fire hit chance of `0.75 * 1.10 = 0.825`; the engine's
`_compute_hit_chance` instead returns `0.9375` (it uses the continuous morale
multiplier `0.5 + 0.75 * morale/100 = 1.25` from
`get_live_combat_multipliers`). -/
theorem claim_C3_counterexample :
    (Combat.morale_modifiers 100).hit = 1.10 ∧
    Combat.compute_hit_chance Combat.fixState Combat.fixState.p = 0.9375 ∧
    Combat.compute_hit_chance Combat.fixState Combat.fixState.p ≠
      0.75 * (Combat.morale_modifiers 100).hit := by
  have htier : (Combat.morale_modifiers 100).hit = 1.10 := by
    norm_num [Combat.morale_modifiers, Combat.morale_tier, String.reduceEq]
  have hchance : Combat.compute_hit_chance Combat.fixState Combat.fixState.p
      = 0.9375 := by
    norm_num [Combat.compute_hit_chance, Combat.get_live_combat_multipliers,
      Combat.fixState, Combat.fixP]
  refine ⟨htier, hchance, ?_⟩
  rw [htier, hchance]
  norm_num

/-- Claim C3 (amended): the tiered morale table exists in `_morale_modifiers`
with exactly the claimed hit modifiers (+10% at morale ≥ 80, neutral at
40–79, −15% at 20–39, −35% below 20, plus a flat 25% panic-fail entry), but
the fire action's hit chance does not use it: `_compute_hit_chance` combines
the stance hit multiplier with the continuous morale multiplier
`0.5 + 0.75 * morale/100` from `get_live_combat_multipliers` and clamps the
result to `[0.05, 0.95]`. -/
theorem claim_C3_amended :
    (∀ m : ℤ, 80 ≤ m → (Combat.morale_modifiers m).hit = 1.10) ∧
    (∀ m : ℤ, 40 ≤ m → m < 80 → (Combat.morale_modifiers m).hit = 1.0) ∧
    (∀ m : ℤ, 20 ≤ m → m < 40 → (Combat.morale_modifiers m).hit = 0.85) ∧
    (∀ m : ℤ, m < 20 → (Combat.morale_modifiers m).hit = 0.65 ∧
      (Combat.morale_modifiers m).panic_fail = 0.25) ∧
    (∀ (st : Combat.CombatEngineState) (u : Combat.CombatantRuntime),
      Combat.compute_hit_chance st u =
        max 0.05 (min 0.95 (0.75 *
          ((if st.stance = Combat.CombatStance.offensive then (1.10 : ℝ)
            else if st.stance = Combat.CombatStance.defensive then 0.90
            else 1.0) *
          (0.5 + (u.morale : ℝ) / 100 * 0.75))))) := by
  refine ⟨?_, ?_, ?_, ?_, ?_⟩
  · intro m hm
    have ht : Combat.morale_tier m = "bonus" := by
      unfold Combat.morale_tier
      rw [if_pos hm]
    simp only [Combat.morale_modifiers, ht, String.reduceEq, if_true, if_false]
  · intro m hm1 hm2
    have ht : Combat.morale_tier m = "neutral" := by
      unfold Combat.morale_tier
      rw [if_neg (by omega), if_pos hm1]
    simp only [Combat.morale_modifiers, ht, String.reduceEq, if_true, if_false]
  · intro m hm1 hm2
    have ht : Combat.morale_tier m = "malus" := by
      unfold Combat.morale_tier
      rw [if_neg (by omega), if_neg (by omega), if_pos hm1]
    simp only [Combat.morale_modifiers, ht, String.reduceEq, if_true, if_false]
  · intro m hm
    have ht : Combat.morale_tier m = "panic" := by
      unfold Combat.morale_tier
      rw [if_neg (by omega), if_neg (by omega), if_neg (by omega)]
    constructor <;>
      simp only [Combat.morale_modifiers, ht, String.reduceEq, if_true, if_false]
  · intro st u
    unfold Combat.compute_hit_chance Combat.get_live_combat_multipliers
    cases st.stance <;> simp <;> ring_nf

/-- Claim C3 (amended, witness): the amended theorem applied at morale 100,
morale 10 and the concrete balanced-stance state. -/
theorem claim_C3_amended_witness :
    (Combat.morale_modifiers 100).hit = 1.10 ∧
    (Combat.morale_modifiers 10).hit = 0.65 ∧
    Combat.compute_hit_chance Combat.fixState Combat.fixP =
      max 0.05 (min 0.95 (0.75 * ((1.0 : ℝ) *
        (0.5 + ((Combat.fixP.morale : ℝ)) / 100 * 0.75)))) := by
  refine ⟨claim_C3_amended.1 100 (by norm_num),
    (claim_C3_amended.2.2.2.1 10 (by norm_num)).1, ?_⟩
  have h := claim_C3_amended.2.2.2.2 Combat.fixState Combat.fixP
  rw [h]
  have hst : Combat.fixState.stance = Combat.CombatStance.balanced := rfl
  rw [hst, if_neg (by decide), if_neg (by decide)]

/-- Helper: `setCd` never changes the enemy combatant. -/
theorem setCd_e_eq (st : Combat.CombatEngineState) (side : String)
    (cd : Combat.Cooldowns) :
    (Combat.CombatEngineState.setCd st side cd).e = st.e := by
  unfold Combat.CombatEngineState.setCd
  split_ifs <;> rfl

/-- Helper: an attempted enemy fire through `use_ability` is rejected with a
Python `None` result and no state change whenever it is not the enemy's turn
(`can_use_ability` answers `finished` or `not_your_turn`). -/
theorem use_ability_fire_enemy_rejected (st : Combat.CombatEngineState)
    (mult : ℝ) (d : Combat.FireDraws) (h : st.turn_owner ≠ "enemy") :
    Combat.use_ability_fire st "enemy" mult d = (none, st) := by
  unfold Combat.use_ability_fire Combat.can_use_ability
  cases hf : st.finished <;> simp [hf, h]

/-- Helper: `_ability_repair` always returns a `None` chip sub-result and
never changes the enemy combatant, on every code path. -/
theorem ability_repair_chip_none (st : Combat.CombatEngineState)
    (side : String) (d : Combat.RepairDraws) :
    (Combat.ability_repair st side d).1.chip = none ∧
    (Combat.ability_repair st side d).2.e = st.e := by
  unfold Combat.ability_repair
  by_cases hside : side = "player"
  · subst hside
    by_cases hblock : (Combat.CombatEngineState.finished st = true ∨
        Combat.CombatEngineState.turn_owner st ≠ "player")
    · simp [hblock]
    · push_neg at hblock
      obtain ⟨hfin, hturn⟩ := hblock
      rw [if_neg (by simp), if_neg (by simp [hfin, hturn])]
      dsimp only
      split_ifs with hpanic
      · exact ⟨rfl, rfl⟩
      all_goals rw [use_ability_fire_enemy_rejected _ _ _ (by simp [hturn])]
      all_goals exact ⟨rfl, rfl⟩
  · simp [hside]

/-- Claim C2: the chip-damage counter-fire attempted inside `_ability_repair`
(`use_ability("fire", "enemy", mult 0.35)`) never resolves: `can_use_ability`
rejects side `"enemy"` because `turn_owner` is still `"player"` during the
player's repair, so every executed repair returns a `None` chip sub-result and
leaves the enemy combatant entirely untouched — the enemy's 35%-multiplier
shot can never damage the player. -/
theorem claim_C2_repair_chip_never_fires (st : Combat.CombatEngineState)
    (side : String) (d : Combat.RepairDraws) (res : Combat.RepairRes) :
    (Combat.use_ability_repair st side d).1 = some res →
      res.chip = none ∧ (Combat.use_ability_repair st side d).2.e = st.e := by
  intro hres
  have h := ability_repair_chip_none st side d
  unfold Combat.use_ability_repair at hres ⊢
  by_cases hok : (Combat.can_use_ability st "repair" side).1 = false
  · rw [if_pos hok] at hres
    cases hres
  · rw [if_neg hok] at hres ⊢
    dsimp only at hres ⊢
    have hres' : res = (Combat.ability_repair st side d).1 := by
      cases hres
      rfl
    constructor
    · rw [hres']
      exact h.1
    · rw [setCd_e_eq]
      exact h.2

/-- Claim C2 (witness): a concrete executed repair (full-morale player, its
turn, hull 50/100) returns `result = "success"`, `heal = 13` and a `None`
chip sub-result. -/
theorem claim_C2_witness :
    (Combat.use_ability_repair Combat.fixState "player" Combat.fixRepairDraws).1 =
      some Combat.fixRepairRes ∧
    Combat.fixRepairRes.chip = none := by
  have heq : (Combat.use_ability_repair Combat.fixState "player"
      Combat.fixRepairDraws).1 = some Combat.fixRepairRes := by
    simp only [Combat.use_ability_repair, Combat.can_use_ability,
      Combat.ability_repair, Combat.use_ability_fire, Combat.fixState,
      Combat.fixP, Combat.fixE, Combat.fixRepairDraws, Combat.fixRepairRes,
      Combat.get_live_combat_multipliers, Combat.compute_repair_success,
      Combat.CombatEngineState.cd, Combat.CombatEngineState.setCd,
      Combat.Cooldowns.get, Combat.Cooldowns.set, String.reduceEq,
      if_true, if_false]
    norm_num [round_eq]
    simp +decide only [if_true, if_false]
  exact ⟨heq, (claim_C2_repair_chip_never_fires Combat.fixState "player"
    Combat.fixRepairDraws Combat.fixRepairRes heq).1⟩

/-- Fold congruence: folding functions that agree on every list element from
the same start yields the same result. -/
theorem foldl_congr_mem {α β : Type} {f g : β → α → β} {l : List α} {b : β}
    (h : ∀ a ∈ l, ∀ x, f x a = g x a) : l.foldl f b = l.foldl g b := by
  induction l generalizing b with
  | nil => rfl
  | cons hd tl ih =>
      simp only [List.foldl_cons]
      rw [h hd (List.mem_cons_self hd tl)]
      exact ih (fun a ha x => h a (List.mem_cons_of_mem hd ha) x)

/-- Claim C8: the daily tick is deterministic.  The tick consumes randomness
only through the per-(city, day) market seed
`(hash(city.id) ^ (day * 1000003)) & 0xFFFFFFFF` and the NPC seed
`(day * 2654435761) & 0xFFFFFFFF`: two runs from the same complete starting
state (markets, supply indices, pending shipments) whose RNG outcomes agree at
those seeds produce identical contexts — in particular identical stock and
price_stock for every city and good.  Running the tick twice with the same
generators is the special case `Gm₁ = Gm₂`, `Gn₁ = Gn₂`. -/
theorem claim_C8_tick_deterministic (Gm₁ Gm₂ : ℕ → Market.MarketOracle)
    (Gn₁ Gn₂ : ℕ → Npc.NpcOracle) (pyhash : String → ℕ) (day : ℕ)
    (ctx : Market.Ctx)
    (hm : ∀ c ∈ ctx.world_cities,
      Gm₁ (Market.market_seed pyhash c.id day) =
        Gm₂ (Market.market_seed pyhash c.id day))
    (hn : Gn₁ (Npc.npc_seed day) = Gn₂ (Npc.npc_seed day)) :
    DayUpdate.on_new_day Gm₁ Gn₁ pyhash day ctx =
      DayUpdate.on_new_day Gm₂ Gn₂ pyhash day ctx ∧
    (∀ cid, Market.market_seed pyhash cid day =
      (Nat.xor (pyhash cid) (day * 1000003)) &&& 0xFFFFFFFF) ∧
    Npc.npc_seed day = (day * 2654435761) &&& 0xFFFFFFFF := by
  refine ⟨?_, fun _ => rfl, rfl⟩
  unfold DayUpdate.on_new_day
  dsimp only
  rw [foldl_congr_mem (fun c hc x => by rw [hm c hc]), hn]

/-- Claim C8 (witness): the determinism theorem applied to the concrete
one-city context with identical generators. -/
theorem claim_C8_witness :
    DayUpdate.on_new_day c1Gm c1Gn c1hash 1 c1ctx =
      DayUpdate.on_new_day c1Gm c1Gn c1hash 1 c1ctx :=
  (claim_C8_tick_deterministic c1Gm c1Gm c1Gn c1Gn c1hash 1 c1ctx
    (fun _ _ => rfl) rfl).1

/-- Claim C5 (amended): NPC shipment conservation holds up to the 3-decimal
rounding of market stock writes (the exact equalities of the claim fail, see
the counterexample).  At creation, the shipment quantity is the chosen
quantity clamped to the available source stock, the new source stock is
`round(stock_before - qty, 3)`, and
`|stock_before - (stock_after + qty)| ≤ 0.0005`; at an arrival with no loss
roll, the destination stock becomes `round(stock_before + qty, 3)`, again
within `0.0005` of exact conservation. -/
theorem claim_C5_amended :
    (∀ (day : ℕ) (d : Npc.DealDraws) (ctx : Market.Ctx)
      (src dst gid : String) (qty : ℝ) (eta : ℤ) (m : Market.CityMarketState),
      Npc.choose_arbitrage d ctx = some (src, dst, gid, qty, eta) →
      ctx.markets src = some m →
      ¬ (min qty ((m.stock gid).getD 0.0) < 1.0) →
      (Npc.make_deal day d ctx).npc_shipments = ctx.npc_shipments ++
        [⟨src, dst, gid, min qty ((m.stock gid).getD 0.0), max 1 eta, day⟩] ∧
      (((Npc.make_deal day d ctx).markets src).map
        (fun m' => (m'.stock gid).getD 0)).getD 0 =
        round3 ((m.stock gid).getD 0.0 - min qty ((m.stock gid).getD 0.0)) ∧
      |(m.stock gid).getD 0.0 -
        ((((Npc.make_deal day d ctx).markets src).map
          (fun m' => (m'.stock gid).getD 0)).getD 0 +
          min qty ((m.stock gid).getD 0.0))| ≤ 1 / 2000) ∧
    (∀ (dr : Npc.ArrivalDraws)
      (acc : (String → Option Market.CityMarketState) × List Market.Shipment)
      (s : Market.Shipment) (m : Market.CityMarketState),
      s.eta_days - 1 ≤ 0 → 0 < s.qty → ¬ (dr.loss_roll < 0.06) →
      acc.1 s.dst_city_id = some m →
      ((Npc.arrival_step dr acc s).1 s.dst_city_id).map
        (fun m' => (m'.stock s.good_id).getD 0) =
        some (round3 ((m.stock s.good_id).getD 0.0 + s.qty)) ∧
      |round3 ((m.stock s.good_id).getD 0.0 + s.qty) -
        ((m.stock s.good_id).getD 0.0 + s.qty)| ≤ 1 / 2000) := by
  constructor
  · intro day d ctx src dst gid qty eta m hchoose hm hq
    unfold Npc.make_deal
    rw [hchoose]
    dsimp only
    rw [hm]
    dsimp only
    rw [if_neg hq]
    refine ⟨rfl, ?_, ?_⟩
    · simp [Function.update]
    · simp only [Option.map_some', Option.getD_some, Function.update_same]
      have habs := abs_round3_sub ((m.stock gid).getD 0.0 -
        min qty ((m.stock gid).getD 0.0))
      have heq : (m.stock gid).getD 0.0 -
          (round3 ((m.stock gid).getD 0.0 - min qty ((m.stock gid).getD 0.0)) +
            min qty ((m.stock gid).getD 0.0)) =
          -(round3 ((m.stock gid).getD 0.0 -
              min qty ((m.stock gid).getD 0.0)) -
            ((m.stock gid).getD 0.0 - min qty ((m.stock gid).getD 0.0))) := by
        ring
      rw [heq, abs_neg]
      exact habs
  · intro dr acc s m heta hqty hloss hacc
    unfold Npc.arrival_step
    dsimp only
    rw [if_neg (by omega : ¬ s.eta_days - 1 > 0)]
    rw [if_neg (by linarith : ¬ s.qty ≤ 0)]
    rw [if_neg hloss]
    rw [if_neg (by linarith : ¬ s.qty ≤ 0)]
    rw [hacc]
    dsimp only
    constructor
    · simp [Function.update]
    · exact abs_round3_sub _

/-- Helper: the source city's ask in the C5 run (`price_stock = target`, so
the reference multiplier is `1^0.85 = 1`). -/
theorem c5_src_ask : Economy.compute_bid_ask 10 100 100 "normal" = (7.5, 11) := by
  have href : Economy.compute_reference_price 10 100 100 = 10 := by
    unfold Economy.compute_reference_price clamp
    dsimp only
    rw [show max (100 : ℝ) 1.0 / max (100 : ℝ) 1.0 = 1 by norm_num,
      Real.one_rpow]
    norm_num
  unfold Economy.compute_bid_ask
  rw [href]
  simp only [Economy.BID_BY_NEED, Economy.ASK_BY_NEED, String.reduceEq,
    if_true, if_false]
  norm_num

/-- Helper: the destination city's bid in the C5 run (starved market, clamp
at 3.5). -/
theorem c5_dst_bid :
    Economy.compute_bid_ask 10 (1 / 2) 180 "critical" = (33.25, 42) := by
  have href : Economy.compute_reference_price 10 (1 / 2) 180 = 35 := by
    unfold Economy.compute_reference_price clamp
    dsimp only
    rw [show max (180 : ℝ) 1.0 / max ((1 : ℝ) / 2) 1.0 = 180 by norm_num]
    have h35 := rpow85_ge_of_hundred_le (show (100 : ℝ) ≤ 180 by norm_num)
    rw [min_eq_left (by linarith : (3.50 : ℝ) ≤ (180 : ℝ) ^ (0.85 : ℝ))]
    norm_num
  unfold Economy.compute_bid_ask
  rw [href]
  simp only [Economy.BID_BY_NEED, Economy.ASK_BY_NEED, String.reduceEq,
    if_true, if_false]
  norm_num

/-- Helper: the profitable `(S, D)` candidate of the C5 run. -/
theorem c5_eval_SD :
    Npc.eval_candidate c5ctx c5dd (0, c1good) (0, ⟨"S"⟩) (1, ⟨"D"⟩) =
      some (("S", "D", "g", 1.2344, 2), 27.4654) := by
  have hctS : Market.get_city_type c5ctx "S" = some c5src_t := rfl
  have hctD : Market.get_city_type c5ctx "D" = some c5dst_t := rfl
  have hneedD : Market.need_of c5dst_t.needs c1good.category = "critical" := rfl
  have hneedS : Market.need_of c5src_t.needs c1good.category = "normal" := rfl
  have hbase : c1good.base_price = 10 := rfl
  have hid : c1good.id = "g" := rfl
  have htD : Market.target_for c5ctx "D" c1good = 180 := by
    unfold Market.target_for
    rw [hctD]
    dsimp only
    rw [hneedD]
    rw [show c1good.target_stock = 100 from rfl]
    simp only [Economy.NEED_TARGET_MULT, String.reduceEq, if_true, if_false]
    norm_num
  have htS : Market.target_for c5ctx "S" c1good = 100 := by
    unfold Market.target_for
    rw [hctS]
    dsimp only
    rw [hneedS]
    rw [show c1good.target_stock = 100 from rfl]
    simp only [Economy.NEED_TARGET_MULT, String.reduceEq, if_true, if_false]
    norm_num
  unfold Npc.eval_candidate
  dsimp only
  rw [if_neg (by decide : ¬ ("S" : String) = "D")]
  rw [show c5ctx.markets "S" = some c5mS from rfl]
  rw [show c5ctx.markets "D" = some c5mD from rfl]
  dsimp only
  rw [hctD, hctS]
  dsimp only
  rw [hneedD, hneedS, htD, htS, hbase, hid]
  simp only [String.reduceEq, if_true, if_false, c5dd, c5mS, c5mD]
  norm_num [c5_src_ask, Npc.travel_time_days]
  rw [c5_dst_bid]
  norm_num

/-- Helper: the same-city `(S, S)` candidate is skipped. -/
theorem c5_eval_SS :
    Npc.eval_candidate c5ctx c5dd (0, c1good) (0, ⟨"S"⟩) (0, ⟨"S"⟩) = none := by
  unfold Npc.eval_candidate
  dsimp only
  rw [if_pos rfl]

/-- Helper: the same-city `(D, D)` candidate is skipped. -/
theorem c5_eval_DD :
    Npc.eval_candidate c5ctx c5dd (0, c1good) (1, ⟨"D"⟩) (1, ⟨"D"⟩) = none := by
  unfold Npc.eval_candidate
  dsimp only
  rw [if_pos rfl]

/-- Helper: the `(D, S)` candidate is skipped — the starved city has fewer
than 3 tons available. -/
theorem c5_eval_DS :
    Npc.eval_candidate c5ctx c5dd (0, c1good) (1, ⟨"D"⟩) (0, ⟨"S"⟩) = none := by
  unfold Npc.eval_candidate
  dsimp only
  rw [if_neg (by decide : ¬ ("D" : String) = "S")]
  rw [show c5ctx.markets "D" = some c5mD from rfl]
  rw [show c5ctx.markets "S" = some c5mS from rfl]
  dsimp only
  rw [show ((c5mD.stock c1good.id).getD 0.0) = 0 from rfl]
  norm_num

/-- Helper: `_choose_arbitrage` on the C5 context picks the `(S, D)`
candidate with the rounding-sensitive quantity `1.2344`. -/
theorem c5_choose :
    Npc.choose_arbitrage c5dd c5ctx = some ("S", "D", "g", 1.2344, 2) := by
  unfold Npc.choose_arbitrage
  rw [show c5ctx.world_cities.length = 2 from rfl]
  rw [if_neg (by norm_num)]
  dsimp only
  rw [show c5dd.good_sample = [c1good] from rfl]
  rw [show c5dd.city_sample = [⟨"S"⟩, ⟨"D"⟩] from rfl]
  rw [show ([c1good]).enum = [(0, c1good)] from rfl]
  rw [show ([(⟨"S"⟩ : Market.City), ⟨"D"⟩]).enum =
    [(0, (⟨"S"⟩ : Market.City)), (1, ⟨"D"⟩)] from rfl]
  simp only [List.foldl_cons, List.foldl_nil]
  rw [c5_eval_SS, c5_eval_SD, c5_eval_DS, c5_eval_DD]
  norm_num

/-- Claim C5 (counterexample): the NPC tick on the two-city context creates
the shipment `(S → D, 1.2344 tons)` and sets the source stock to
`round(10 - 1.2344, 3) = 8.766`, so the claimed exact conservation
`stock_before == stock_after + qty` fails: `8.766 + 1.2344 = 10.0004 ≠ 10`. -/
theorem claim_C5_counterexample :
    (Npc.on_new_day c5no 7 c5ctx).npc_shipments =
      [⟨"S", "D", "g", 1.2344, 2, 7⟩] ∧
    (((Npc.on_new_day c5no 7 c5ctx).markets "S").map
      (fun m => (m.stock "g").getD 0)).getD 0 = 8.766 ∧
    ¬ ((10 : ℝ) = 8.766 + 1.2344) := by
  have harr : Npc.apply_shipments_arrival c5no c5ctx = c5ctx := rfl
  have hdeal : Npc.make_deal 7 (c5no.deal 0) c5ctx =
      { c5ctx with
        markets := (Function.update c5ctx.markets "S" (some { c5mS with stock := (Function.update c5mS.stock "g" (some (round3 (10 - min (1.2344 : ℝ) 10)))) }))
        npc_shipments := [⟨"S", "D", "g", min (1.2344 : ℝ) 10, max 1 2, 7⟩] } := by
    unfold Npc.make_deal
    rw [show c5no.deal 0 = c5dd from rfl]
    rw [c5_choose]
    dsimp only
    rw [show c5ctx.markets "S" = some c5mS from rfl]
    dsimp only
    rw [show ((c5mS.stock "g").getD 0.0) = 10 from rfl]
    rw [if_neg (by norm_num : ¬ min (1.2344 : ℝ) 10 < 1.0)]
    rfl
  have hrun : Npc.on_new_day c5no 7 c5ctx = Npc.make_deal 7 (c5no.deal 0) c5ctx := by
    unfold Npc.on_new_day
    rw [harr]
    dsimp only
    rw [show c5ctx.world_cities.length = 2 from rfl]
    rw [show (max 1 (min 8 (round (((2 : ℕ) : ℝ) * 0.65))) : ℤ) = 1 by
      norm_num [round_eq]]
    rfl
  rw [hrun, hdeal]
  refine ⟨?_, ?_, by norm_num⟩
  · simp only [List.cons.injEq, Market.Shipment.mk.injEq]
    norm_num
  · simp only [Function.update_same, Option.map_some', Option.getD_some]
    rw [show min (1.2344 : ℝ) 10 = 1.2344 by norm_num]
    norm_num [round3, round_eq]

/-- Claim C5 (witness): the amended conservation theorem applied to the
concrete deal chosen on the C5 context (creation) and to a concrete
2.5-ton no-loss arrival into the same market. -/
theorem claim_C5_witness :
    (Npc.make_deal 7 c5dd c5ctx).npc_shipments = c5ctx.npc_shipments ++
      [⟨"S", "D", "g", min 1.2344 ((c5mS.stock "g").getD 0.0), max 1 2, 7⟩] ∧
    ((Npc.arrival_step c5ad (c5ctx.markets, []) c5ship).1 "S").map
        (fun m' => (m'.stock "g").getD 0) =
      some (round3 ((c5mS.stock "g").getD 0.0 + c5ship.qty)) := by
  constructor
  · exact (claim_C5_amended.1 7 c5dd c5ctx "S" "D" "g" 1.2344 2 c5mS
      c5_choose rfl
      (by rw [show ((c5mS.stock "g").getD 0.0) = 10 from rfl]; norm_num)).1
  · exact (claim_C5_amended.2 c5ad (c5ctx.markets, []) c5ship c5mS
      (by decide) (by rw [show c5ship.qty = 2.5 from rfl]; norm_num)
      (by rw [show c5ad.loss_roll = 0.5 from rfl]; norm_num) rfl).1

/-- Fold preservation: a property preserved by every step holds for the fold. -/
theorem foldl_preserve {α β : Type} (P : β → Prop) (f : β → α → β) (l : List α)
    (b : β) (hb : P b) (hf : ∀ x a, a ∈ l → P x → P (f x a)) :
    P (l.foldl f b) := by
  induction l generalizing b with
  | nil => exact hb
  | cons hd tl ih =>
      exact ih (f b hd) (hf b hd (List.mem_cons_self hd tl) hb)
        (fun x a ha hx => hf x a (List.mem_cons_of_mem hd ha) hx)

theorem stock_getD_nonneg {m : Market.CityMarketState} (hm : MNonneg m)
    (gid : String) : 0 ≤ (m.stock gid).getD 0.0 := by
  cases h : m.stock gid with
  | none => norm_num
  | some v => exact hm.1 gid v h

theorem MNonneg_update_stock {m : Market.CityMarketState} (hm : MNonneg m)
    (gid : String) {x : ℝ} (hx : 0 ≤ x) :
    MNonneg { m with stock := Function.update m.stock gid (some x) } := by
  refine ⟨?_, hm.2⟩
  intro g v hv
  dsimp only at hv
  rw [Function.update_apply] at hv
  split at hv
  · cases hv
    exact hx
  · exact hm.1 g v hv

theorem MNonneg_update_both {m : Market.CityMarketState} (hm : MNonneg m)
    (gid : String) {x y : ℝ} (hx : 0 ≤ x) (hy : 0 ≤ y) :
    MNonneg { m with
      stock := Function.update m.stock gid (some x)
      price_stock := Function.update m.price_stock gid (some y) } := by
  constructor
  · intro g v hv
    dsimp only at hv
    rw [Function.update_apply] at hv
    split at hv
    · cases hv
      exact hx
    · exact hm.1 g v hv
  · intro g v hv
    dsimp only at hv
    rw [Function.update_apply] at hv
    split at hv
    · cases hv
      exact hy
    · exact hm.2 g v hv

theorem zero_le_max00 (x : ℝ) : (0 : ℝ) ≤ max 0.0 x := by
  rw [le_max_iff]
  left
  norm_num

theorem zero_le_maxx0 (x : ℝ) : (0 : ℝ) ≤ max x 0.0 := by
  rw [le_max_iff]
  right
  norm_num

theorem zero_le_max2 (x : ℝ) : (0 : ℝ) ≤ max 2.0 x := by
  rw [le_max_iff]
  left
  norm_num

/-- The per-good market-tick step writes a nonnegative stock and a
nonnegative price-stock, provided the shock factor is nonnegative. -/
theorem good_tick_MNonneg (ctx : Market.Ctx) (cid : String)
    (ctype : Market.CityType) (ctid : String) (cm pb cb : ℝ) (shock : Bool)
    (scat : String) (sf : ℝ) (g : Market.Good) (d : Market.GoodDraws)
    (ms : Market.CityMarketState × (String × String → Option ℝ))
    (hsf : 0 ≤ sf) (hm : MNonneg ms.1) :
    MNonneg (Market.good_tick ctx cid ctype ctid cm pb cb shock scat sf g d ms).1 := by
  unfold Market.good_tick
  dsimp only
  apply MNonneg_update_both hm
  · apply round3_nonneg
    refine le_min ?_ ?_
    · split_ifs with h <;>
        first
          | exact mul_nonneg (zero_le_max00 _) hsf
          | exact zero_le_max00 _
    · exact zero_le_max2 _
  · exact round3_nonneg (zero_le_maxx0 _)

theorem external_flow_params_pos (ctid : String) :
    0 < (Market.external_flow_params ctid).1 ∧
    0 < (Market.external_flow_params ctid).2 := by
  unfold Market.external_flow_params
  split_ifs <;> norm_num

theorem category_external_bias_pos (ctid cat : String) :
    0 < (Market.category_external_bias ctid cat).1 ∧
    0 < (Market.category_external_bias ctid cat).2 := by
  unfold Market.category_external_bias
  split_ifs <;> norm_num

/-- The external-flows step keeps stocks nonnegative: imports only add a
positive quantity, and an export only fires when the export capacity is
positive, which (all multipliers being positive) forces a positive target, so
the exported stock stays above `1.05 * target > 0`. -/
theorem external_flow_MNonneg (ctx : Market.Ctx) (cid : String)
    (ctype : Market.CityType) (ctid : String) (im em df : ℝ)
    (g : Market.Good) (fd : Market.FlowDraws) (market : Market.CityMarketState)
    (hem : 0 < em) (hvol : 0 < fd.exp_vol) (hdf : 0 < df)
    (hm : MNonneg market) :
    MNonneg (Market.external_flow_good ctx cid ctype ctid im em df g fd market) := by
  unfold Market.external_flow_good
  dsimp only
  have heb := (category_external_bias_pos ctid g.category).2
  -- the market after the import half
  set m1 := (if (market.stock g.id).getD 0.0 < 0.70 * Market.target_for ctx cid g ∧
      0.06 * Market.target_for ctx cid g * im *
        (Market.category_external_bias ctid g.category).1 * fd.imp_vol * df > 0 then
      (if min (0.06 * Market.target_for ctx cid g * im *
            (Market.category_external_bias ctid g.category).1 * fd.imp_vol * df *
            (0.6 + 0.5 * Market.need_weight (Market.need_of ctype.needs g.category)))
          (max 0.0 (0.90 * Market.target_for ctx cid g -
            (market.stock g.id).getD 0.0)) > 0 then
        { market with stock := (Function.update market.stock g.id (some (round3
            ((market.stock g.id).getD 0.0 + min (0.06 * Market.target_for ctx cid g * im *
              (Market.category_external_bias ctid g.category).1 * fd.imp_vol * df *
              (0.6 + 0.5 * Market.need_weight (Market.need_of ctype.needs g.category)))
              (max 0.0 (0.90 * Market.target_for ctx cid g -
                (market.stock g.id).getD 0.0)))))) }
      else market)
    else market) with hm1def
  have hm1 : MNonneg m1 := by
    rw [hm1def]
    split_ifs with h1 h2
    · apply MNonneg_update_stock hm
      apply round3_nonneg
      have hst := stock_getD_nonneg hm g.id
      linarith [h2]
    · exact hm
    · exact hm
  split_ifs with h3 h4
  · -- export fires: qty > 0 and export_cap ≥ qty > 0 force target > 0
    apply MNonneg_update_stock hm1
    apply round3_nonneg
    have hqty := h4
    have hcap : 0 < 0.07 * Market.target_for ctx cid g * em *
        (Market.category_external_bias ctid g.category).2 * fd.exp_vol * df := by
      by_contra hc
      push_neg at hc
      have : min (0.07 * Market.target_for ctx cid g * em *
          (Market.category_external_bias ctid g.category).2 * fd.exp_vol * df)
          ((m1.stock g.id).getD 0.0 - 1.05 * Market.target_for ctx cid g) ≤ 0 :=
        le_trans (min_le_left _ _) hc
      linarith
    have ht : 0 < Market.target_for ctx cid g := by
      by_contra hc
      push_neg at hc
      have h5 : 0.07 * Market.target_for ctx cid g ≤ 0 := by linarith
      have h6 : 0.07 * Market.target_for ctx cid g * em ≤ 0 := by nlinarith
      have h7 : 0.07 * Market.target_for ctx cid g * em *
          (Market.category_external_bias ctid g.category).2 ≤ 0 := by nlinarith
      have h8 : 0.07 * Market.target_for ctx cid g * em *
          (Market.category_external_bias ctid g.category).2 * fd.exp_vol ≤ 0 := by
        nlinarith
      nlinarith
    have hmin := min_le_right (0.07 * Market.target_for ctx cid g * em *
        (Market.category_external_bias ctid g.category).2 * fd.exp_vol * df)
        ((m1.stock g.id).getD 0.0 - 1.05 * Market.target_for ctx cid g)
    linarith
  · exact hm1
  · exact hm1

/-- One city's market tick preserves nonnegative stocks and price-stocks. -/
theorem city_tick_MarketsNonneg (o : Market.MarketOracle) (city : Market.City)
    (ctx : Market.Ctx) (ho : MarketOracleOk o) (h : MarketsNonneg ctx) :
    MarketsNonneg (Market.city_tick o city ctx) := by
  obtain ⟨hsr, hss, hdr, hdf, hgood, hflow⟩ := ho
  unfold Market.city_tick
  cases hmk : ctx.markets city.id with
  | none => exact h
  | some market =>
    cases hct : Market.get_city_type ctx city.id with
    | none => exact h
    | some ctype =>
      dsimp only
      intro cid m hm'
      dsimp only at hm'
      rw [Function.update_apply] at hm'
      split at hm'
      · -- the ticked city: thread MNonneg through both folds
        cases hm'
        apply foldl_preserve MNonneg
        · apply And.left
            (foldl_preserve (fun ms => MNonneg ms.1 ∧ True) _ _
              (market, ctx.city_supply_idx) ⟨h city.id market hmk, trivial⟩ ?_)
          intro x a _ hx
          refine ⟨good_tick_MNonneg _ _ _ _ _ _ _ _ _ _ _ _ _ ?_ hx.1, trivial⟩
          split_ifs with hs
          · linarith [hss.2]
          · norm_num
        · intro x a _ hx
          apply external_flow_MNonneg
          · exact (external_flow_params_pos _).2
          · linarith [(hflow a.1).2.2.1]
          · split_ifs with hd
            · linarith [hdf.1]
            · norm_num
          · exact hx
      · exact h cid m hm'

/-- Shipment arrival steps preserve nonnegative stocks and price-stocks. -/
theorem arrival_step_MarketsNonneg (d : Npc.ArrivalDraws)
    (acc : (String → Option Market.CityMarketState) × List Market.Shipment)
    (s : Market.Shipment) (h : MarketsNonnegFn acc.1) :
    MarketsNonnegFn (Npc.arrival_step d acc s).1 := by
  unfold Npc.arrival_step
  dsimp only
  by_cases h1 : s.eta_days - 1 > 0
  · rw [if_pos h1]
    exact h
  rw [if_neg h1]
  by_cases h2 : s.qty ≤ 0
  · rw [if_pos h2]
    exact h
  rw [if_neg h2]
  by_cases hq0 : (if d.loss_roll < 0.06 then
      (if d.total_roll < 0.25 then 0.0 else s.qty * (1.0 - d.partial_frac))
      else s.qty) ≤ 0
  · rw [if_pos hq0]
    exact h
  rw [if_neg hq0]
  push_neg at hq0
  cases hdst : acc.1 s.dst_city_id with
  | none => exact h
  | some dst =>
    dsimp only
    intro cid m hm'
    rw [Function.update_apply] at hm'
    split at hm'
    · cases hm'
      refine MNonneg_update_both (h _ _ hdst) s.good_id ?_ ?_
      · exact round3_nonneg (add_nonneg (stock_getD_nonneg (h _ _ hdst) _)
          (le_of_lt hq0))
      · exact round3_nonneg (zero_le_maxx0 _)
    · exact h cid m hm'

/-- Deal creation preserves nonnegative stocks (the quantity is clamped to
the available stock before the deduction). -/
theorem make_deal_MarketsNonneg (day : ℕ) (d : Npc.DealDraws)
    (ctx : Market.Ctx) (h : MarketsNonneg ctx) :
    MarketsNonneg (Npc.make_deal day d ctx) := by
  unfold Npc.make_deal
  cases Npc.choose_arbitrage d ctx with
  | none => exact h
  | some choice =>
    obtain ⟨src, dst, gid, qty, eta⟩ := choice
    dsimp only
    cases hsrc : ctx.markets src with
    | none => exact h
    | some m =>
      dsimp only
      split_ifs with h1
      · exact h
      · intro cid m' hm'
        dsimp only at hm'
        rw [Function.update_apply] at hm'
        split at hm'
        · cases hm'
          refine MNonneg_update_stock (h _ _ hsrc) gid (round3_nonneg ?_)
          have := stock_getD_nonneg (h _ _ hsrc) gid
          have := min_le_right qty ((m.stock gid).getD 0.0)
          linarith
        · exact h cid m' hm'

/-- The NPC day tick preserves nonnegative stocks and price-stocks. -/
theorem npc_on_new_day_MarketsNonneg (o : Npc.NpcOracle) (day : ℕ)
    (ctx : Market.Ctx) (h : MarketsNonneg ctx) :
    MarketsNonneg (Npc.on_new_day o day ctx) := by
  unfold Npc.on_new_day
  dsimp only
  apply foldl_preserve MarketsNonneg
  · unfold Npc.apply_shipments_arrival
    dsimp only
    apply foldl_preserve
      (fun acc : (String → Option Market.CityMarketState) ×
        List Market.Shipment => MarketsNonnegFn acc.1)
    · exact h
    · exact fun x a _ hx => arrival_step_MarketsNonneg (o.arrival a.1) x a.2 hx
  · exact fun x a _ hx => make_deal_MarketsNonneg day (o.deal a) x hx

/-- `_update_top_needs` only rewrites `top_needs`, so it preserves the
invariant. -/
theorem update_top_needs_MarketsNonneg (ctx : Market.Ctx)
    (h : MarketsNonneg ctx) : MarketsNonneg (Market.update_top_needs ctx) := by
  unfold Market.update_top_needs
  apply foldl_preserve MarketsNonneg
  · exact h
  · intro x a _ hx
    cases hmk : x.markets a.id with
    | none => exact hx
    | some market =>
      cases Market.get_city_type x a.id with
      | none =>
        intro cid m hm'
        dsimp only at hm'
        rw [Function.update_apply] at hm'
        split at hm'
        · cases hm'
          exact ⟨(hx _ _ hmk).1, (hx _ _ hmk).2⟩
        · exact hx cid m hm'
      | some ctype =>
        intro cid m hm'
        dsimp only at hm'
        rw [Function.update_apply] at hm'
        split at hm'
        · cases hm'
          exact ⟨(hx _ _ hmk).1, (hx _ _ hmk).2⟩
        · exact hx cid m hm'

/-- Claim C1 (amended): after a daily tick — the market tick of `on_new_day`
including the external import/export flows and the NPC trade step — every
market value satisfies `0 ≤ stock` and `0 ≤ price_stock` (for all RNG
outcomes inside their `uniform` ranges).  The upper bound
`stock ≤ capacity` is NOT preserved by the full tick: NPC shipment arrivals
add to the destination stock with no capacity clamp (see the
counterexample), and the 3-decimal rounding alone can exceed a non-3-decimal
capacity by up to 0.0005. -/
theorem claim_C1_amended (Gm : ℕ → Market.MarketOracle)
    (Gn : ℕ → Npc.NpcOracle) (pyhash : String → ℕ) (day : ℕ)
    (ctx : Market.Ctx) (hGm : ∀ s, MarketOracleOk (Gm s))
    (h : MarketsNonneg ctx) :
    MarketsNonneg (DayUpdate.on_new_day Gm Gn pyhash day ctx) := by
  unfold DayUpdate.on_new_day
  dsimp only
  apply update_top_needs_MarketsNonneg
  apply npc_on_new_day_MarketsNonneg
  apply foldl_preserve MarketsNonneg
  · exact h
  · exact fun x a _ hx =>
      city_tick_MarketsNonneg _ a x (hGm (Market.market_seed pyhash a.id day)) hx

/-- Helper: the target for the C1 good at city `"A"` is 100 tons. -/
theorem c1_target : Market.target_for c1ctx "A" c1good = 100 := by
  unfold Market.target_for
  rw [show Market.get_city_type c1ctx "A" = some c1ctype from rfl]
  dsimp only
  rw [show Market.need_of c1ctype.needs c1good.category = "normal" from rfl,
    show c1good.target_stock = 100 from rfl]
  simp only [Economy.NEED_TARGET_MULT, String.reduceEq, if_true, if_false]
  norm_num

set_option maxHeartbeats 1600000 in
/-- Helper: the C1 city market tick computes the explicit post-tick context:
stock `round(126, 3) = 126` after consumption, then 119 after the export
flow, price-stock `140 + 0.18 * (126 - 140) = 137.48`, supply index 1.0. -/
theorem c1_city_eval :
    Market.city_tick c1mo (⟨"A"⟩ : Market.City) c1ctx = c1ctx1 := by
  unfold Market.city_tick Market.good_tick Market.supply_idx_step
    Market.external_flow_good
  simp only [c1_target,
    show c1ctx.markets "A" = some c1mA from rfl,
    show Market.get_city_type c1ctx "A" = some c1ctype from rfl,
    show c1ctx.goods = [c1good] from rfl,
    show c1good.id = "g" from rfl,
    show c1good.category = "raw" from rfl,
    show c1good.spoil_rate_per_day = (0 : ℝ) from rfl,
    show Market.need_of c1ctype.needs "raw" = "normal" from rfl,
    show c1ctype.id = "plain_city" from rfl,
    show c1ctype.market_size = "medium" from rfl,
    show c1mA.stock "g" = some (140 : ℝ) from rfl,
    show c1mA.price_stock "g" = (none : Option ℝ) from rfl,
    show c1mA.top_needs = ([] : List String) from rfl,
    show c1ctx.city_supply_idx ("A", "raw") = (none : Option ℝ) from rfl,
    show c1mo.shock_roll = (0.5 : ℝ) from rfl,
    show c1mo.shock_cat = "food" from rfl,
    show c1mo.disrupt_roll = (0.5 : ℝ) from rfl,
    show c1mo.good 0 = (⟨1.0, 0.0, 0.5, 0.0, 1.0⟩ : Market.GoodDraws) from rfl,
    show c1mo.flow 0 = (⟨1.0, 1.0⟩ : Market.FlowDraws) from rfl,
    Market.need_weight, Market.production_bias, Market.market_size_params,
    Market.external_flow_params, Market.category_external_bias,
    c1ctx1, c1m2, c1m1s, c1m1p,
    List.enum, List.enumFrom, List.foldl_cons, List.foldl_nil,
    Option.getD_some, Option.getD_none, Function.update_same,
    Function.update_apply, String.reduceEq, ne_eq, not_false_eq_true,
    if_true, if_false, and_false, false_and, and_true, true_and,
    decide_eq_true_eq]
  norm_num [min_def, max_def, round3, round_eq, Function.update_same,
    Function.update_apply, Option.getD_some, Option.getD_none]

/-- Helper: a world with fewer than two cities can never produce an arbitrage
deal (`_choose_arbitrage` bails out), so `make_deal` is the identity. -/
theorem make_deal_single (day : ℕ) (d : Npc.DealDraws) (c : Market.Ctx)
    (h : c.world_cities.length < 2) : Npc.make_deal day d c = c := by
  unfold Npc.make_deal Npc.choose_arbitrage
  rw [if_pos h]

set_option maxHeartbeats 800000 in
/-- Helper: the C1 NPC tick delivers the 30-ton shipment
(`round(119 + 30, 3) = 149` tons, no loss at roll 0.5) and makes no deal. -/
theorem c1_npc_eval : Npc.on_new_day c1no 1 c1ctx1 = c1ctx2 := by
  unfold Npc.on_new_day Npc.apply_shipments_arrival Npc.arrival_step
  simp only [show c1ctx1.npc_shipments =
      [(⟨"B", "A", "g", 30, 1, 0⟩ : Market.Shipment)] from rfl,
    show c1no.arrival 0 = (⟨0.5, 0.5, 0.30⟩ : Npc.ArrivalDraws) from rfl,
    show c1ctx1.markets "A" = some c1m2 from rfl,
    show c1m2.stock "g" = some (119 : ℝ) from rfl,
    show c1m2.price_stock "g" = some (137.48 : ℝ) from rfl,
    show c1ctx1.world_cities = [(⟨"A"⟩ : Market.City)] from rfl,
    List.enum, List.enumFrom, List.foldl_cons, List.foldl_nil,
    List.length_cons, List.length_nil,
    Option.getD_some, Option.getD_none, String.reduceEq, if_true, if_false]
  norm_num [min_def, max_def, round3, round_eq,
    show (1 : ℤ).toNat = 1 from rfl,
    show List.range 1 = [0] from rfl,
    List.foldl_cons, List.foldl_nil, Option.getD_some]
  rw [make_deal_single]
  · simp only [c1ctx2, c1m3,
      show c1ctx1.world_cities = [(⟨"A"⟩ : Market.City)] from rfl,
      show c1m2.top_needs = ([] : List String) from rfl]
    norm_num [round3, round_eq, max_def]
  · norm_num [show c1ctx1.world_cities = [(⟨"A"⟩ : Market.City)] from rfl]

/-- Helper: `_update_top_needs` only rewrites `top_needs`; every stock value
it stores back is the one it read. -/
theorem update_top_needs_stock_proj (ctx : Market.Ctx) (cid gid : String) :
    ((Market.update_top_needs ctx).markets cid).map
        (fun m => (m.stock gid).getD 0) =
      (ctx.markets cid).map (fun m => (m.stock gid).getD 0) := by
  unfold Market.update_top_needs
  apply foldl_preserve (fun c : Market.Ctx =>
    (c.markets cid).map (fun m => (m.stock gid).getD 0) =
      (ctx.markets cid).map (fun m => (m.stock gid).getD 0))
  · rfl
  · intro x a _ hx
    cases hmk : x.markets a.id with
    | none => exact hx
    | some market =>
      cases Market.get_city_type x a.id with
      | none =>
        dsimp only
        rw [← hx]
        rcases eq_or_ne cid a.id with hc | hc
        · subst hc
          simp only [Function.update_same, hmk, Option.map_some']
        · rw [Function.update_noteq hc]
      | some ctype =>
        dsimp only
        rw [← hx]
        rcases eq_or_ne cid a.id with hc | hc
        · subst hc
          simp only [Function.update_same, hmk, Option.map_some']
        · rw [Function.update_noteq hc]

/-- Claim C1 (counterexample): on the one-city context `c1ctx` — good `"g"`
held at exactly its capacity `max(2, 100 * 1.40) = 140` — the full daily tick
of day 1 (market tick, NPC tick, top-needs refresh) with quiet in-range RNG
ends with 149 tons in stock: the 30-ton NPC shipment is delivered with no
capacity clamp, so the claimed invariant `stock ≤ capacity` fails after the
tick (`149 > 140`). -/
theorem claim_C1_counterexample :
    (((DayUpdate.on_new_day c1Gm c1Gn c1hash 1 c1ctx).markets "A").map
        (fun m => (m.stock "g").getD 0)).getD 0 = 149 ∧
    max 2.0 (Market.target_for c1ctx "A" c1good *
      (Market.market_size_params c1ctype.market_size).1) = 140 ∧
    ¬ ((149 : ℝ) ≤ 140) := by
  refine ⟨?_, ?_, by norm_num⟩
  · unfold DayUpdate.on_new_day
    dsimp only
    rw [show c1ctx.world_cities = [(⟨"A"⟩ : Market.City)] from rfl]
    simp only [List.foldl_cons, List.foldl_nil]
    rw [show c1Gm (Market.market_seed c1hash "A" 1) = c1mo from rfl]
    rw [c1_city_eval]
    rw [show c1Gn (Npc.npc_seed 1) = c1no from rfl]
    rw [c1_npc_eval]
    rw [update_top_needs_stock_proj]
    rw [show c1ctx2.markets "A" = some c1m3 from rfl]
    simp only [Option.map_some', Option.getD_some]
    rw [show c1m3.stock "g" = some (149 : ℝ) from rfl]
    simp only [Option.getD_some]
  · rw [c1_target, show Market.market_size_params c1ctype.market_size =
      ((1.40 : ℝ), (0.10 : ℝ), (0.10 : ℝ)) from rfl]
    norm_num [max_def]

/-- Claim C1 (amended, witness): the amended nonnegativity theorem applied to
the concrete C1 run — the quiet oracle is in range, the starting context is
nonnegative, and so is the post-tick context. -/
theorem claim_C1_amended_witness :
    (∀ s, MarketOracleOk (c1Gm s)) ∧ MarketsNonneg c1ctx ∧
      MarketsNonneg (DayUpdate.on_new_day c1Gm c1Gn c1hash 1 c1ctx) := by
  have h1 : ∀ s, MarketOracleOk (c1Gm s) := by
    intro s
    show MarketOracleOk c1mo
    unfold MarketOracleOk
    norm_num [c1mo]
  have hstk : MNonneg c1mA := by
    constructor
    · intro g v hv
      by_cases hg : g = "g"
      · subst hg
        rw [show c1mA.stock "g" = some (140 : ℝ) from rfl] at hv
        injection hv with h
        subst h
        norm_num
      · rw [show c1mA.stock =
            (fun x => if x = "g" then some (140 : ℝ) else none) from rfl] at hv
        dsimp only at hv
        rw [if_neg hg] at hv
        exact Option.noConfusion hv
    · intro g v hv
      rw [show c1mA.price_stock g = (none : Option ℝ) from rfl] at hv
      exact Option.noConfusion hv
  have h2 : MarketsNonneg c1ctx := by
    intro cid m hm
    by_cases hc : cid = "A"
    · subst hc
      rw [show c1ctx.markets "A" = some c1mA from rfl] at hm
      injection hm with h
      exact h ▸ hstk
    · rw [show c1ctx.markets =
          (fun c => if c = "A" then some c1mA else none) from rfl] at hm
      dsimp only at hm
      rw [if_neg hc] at hm
      exact Option.noConfusion hm
  exact ⟨h1, h2, claim_C1_amended c1Gm c1Gn c1hash 1 c1ctx h1 h2⟩

end PirateSim
